import Mathlib

/-!
# Verification of the flashcard pipeline core (cache manager, cache repository, queue repository)

Shallow embedding of the Rust sources under `src/rust/core/src/`:

* `models/vocabulary.rs` — `VocabularyItem`, `Stage1Result`, `Stage2Result`,
  `SemanticAnalysis`, `FlashcardContent` and the cache-key derivation functions.
* `models/cache.rs` — `CacheStats` and `calculate_hit_rate`.
* `models/queue.rs` — `ProcessingStatus`, `ProcessingStage`, `QueueItem` helpers.
* `models/error.rs` — `PipelineError`.
* `database/repositories/cache.rs` — `CacheRepository`: `get_stage1_cache`,
  `save_stage1_cache`, `get_stage2_cache`, `save_stage2_cache`, `get_cache_stats`,
  and the access/metrics bookkeeping.
* `database/repositories/queue.rs` — `QueueRepository`: `enqueue_batch`,
  `update_status`, `complete_stage`, `increment_retry`.
* `cache_manager.rs` — `CacheManager`: `get_or_compute_stage1`,
  `get_or_compute_stage2`, `warm_cache_for_batch`.

Modelling conventions:

* The SQLite database is modelled as explicit Lean state (lists of rows); every
  stateful repository operation returns `Except PipelineError α × State` so that
  writes that committed before an error surface are kept (the Rust code only
  wraps `enqueue_batch`, `complete_stage` and `increment_retry` in transactions).
* `CURRENT_TIMESTAMP` / `DATE('now')` are modelled by a clock field `now` in the
  state; time is `Nat`.
* The SHA-256 digest is modelled as an explicit parameter `digest : String → String`
  applied to exactly the byte string the Rust code feeds to the hasher
  (the concatenation of the `hasher.update` calls, in source order).
  Collision resistance is idealised as injectivity of `digest` where a theorem
  needs it; properties that hold for *every* digest function (in particular
  equality of hash inputs) are stated for all `digest`.
* `serde_json` round-trips are modelled by a small JSON value type `Json` in
  which a subtree that deserialises to a `SemanticAnalysis` (resp.
  `FlashcardContent`) is represented by the constructor `jSem` (resp. `jFlash`);
  a stored `response_json` column is a `StoredDoc`, which is either a parsable
  document or `malformed` (a string `serde_json::from_str` rejects).
* `f64` arithmetic in `calculate_hit_rate` (a guarded division of two integer
  counters) is modelled exactly over `ℚ`; the property at stake is the
  zero-denominator guard, not floating-point rounding.
* Asynchronous execution is irrelevant to the claims (each operation is a
  sequential body awaiting its own steps), so operations are plain functions.
  The caller-supplied producer closure of `get_or_compute_*` is modelled by its
  outcome value; the returned `Bool` records whether the closure was invoked.
-/

namespace Pipeline

abbrev Timestamp := Nat

/-! ## models/vocabulary.rs -/

/-- `DifficultyLevel` from `models/vocabulary.rs`. -/
inductive DifficultyLevel where
  | beginner | elementary | intermediate | advanced | native
deriving DecidableEq

/-- `FrequencyLevel` from `models/vocabulary.rs`. -/
inductive FrequencyLevel where
  | veryCommon | common | uncommon | rare | archaic
deriving DecidableEq

/-- `FormalityLevel` from `models/vocabulary.rs`. -/
inductive FormalityLevel where
  | veryFormal | formal | neutral | informal | veryInformal
deriving DecidableEq

/-- `SemanticAnalysis` from `models/vocabulary.rs`. -/
structure SemanticAnalysis where
  primary_meaning : String
  alternative_meanings : List String
  connotations : List String
  register : String
  usage_contexts : List String
  cultural_notes : Option String
  frequency : FrequencyLevel
  formality : FormalityLevel
deriving DecidableEq

/-- `CardType` from `models/vocabulary.rs`. -/
inductive CardType where
  | basic | basicReversed | cloze | production | recognition
deriving DecidableEq

/-- `CardFace` from `models/vocabulary.rs` (`example` is a Lean keyword, hence
the primed field name). -/
structure CardFace where
  primary_content : String
  secondary_content : Option String
  example' : Option String
  pronunciation : Option String
  notes : Option String
  media_references : List String
deriving DecidableEq

/-- `FlashcardContent` from `models/vocabulary.rs`. -/
structure FlashcardContent where
  front : CardFace
  back : CardFace
  tags : List String
  deck_name : String
  card_type : CardType
deriving DecidableEq

/-- `VocabularyItem` from `models/vocabulary.rs`.  The `metadata` HashMap is
modelled as an association list of opaque strings (it is never read by the
verified operations). -/
structure VocabularyItem where
  id : Option Int
  korean : String
  english : String
  hanja : Option String
  category : String
  subcategory : Option String
  tags : List String
  difficulty_level : DifficultyLevel
  source : String
  example_sentence : Option String
  notes : Option String
  metadata : List (String × String)
  created_at : Timestamp
  updated_at : Timestamp
deriving DecidableEq

/-- `Stage1Result` from `models/vocabulary.rs`. -/
structure Stage1Result where
  vocabulary_id : Int
  request_id : String
  cache_key : String
  semantic_analysis : SemanticAnalysis
  created_at : Timestamp
deriving DecidableEq

/-- `Stage2Result` from `models/vocabulary.rs`. -/
structure Stage2Result where
  vocabulary_id : Int
  stage1_cache_key : String
  request_id : String
  cache_key : String
  flashcard_content : FlashcardContent
  tsv_output : String
  created_at : Timestamp
deriving DecidableEq

/-- The exact byte string `VocabularyItem::generate_cache_key` feeds to the
SHA-256 hasher: the concatenation (in source order) of
`korean`, `english`, `category`, then `hanja` if present, then
`example_sentence` if present (`hasher.update` concatenates its inputs). -/
def cacheKeyInput (v : VocabularyItem) : String :=
  v.korean ++ v.english ++ v.category ++
    (match v.hanja with
     | some h => h
     | none => "") ++
    (match v.example_sentence with
     | some e => e
     | none => "")

/-- `VocabularyItem::generate_cache_key`, with the SHA-256 hex digest abstracted
as the parameter `digest`. -/
def VocabularyItem.generate_cache_key (digest : String → String)
    (v : VocabularyItem) : String :=
  digest (cacheKeyInput v)

/-- `Stage1Result::generate_cache_key`: `format!("stage1_{}", vocab_item.generate_cache_key())`. -/
def Stage1Result.generate_cache_key (digest : String → String)
    (v : VocabularyItem) : String :=
  "stage1_" ++ v.generate_cache_key digest

/-- `Stage2Result::generate_cache_key`: the digest of the Stage-1 key followed by
the item key, prefixed `stage2_`. -/
def Stage2Result.generate_cache_key (digest : String → String)
    (v : VocabularyItem) (stage1_key : String) : String :=
  "stage2_" ++ digest (stage1_key ++ v.generate_cache_key digest)

/-! ## models/error.rs -/

/-- `PipelineError` from `models/error.rs`.  Wrapped foreign error types
(`sqlx::Error`, `serde_json::Error`, `std::io::Error`) are modelled by their
display string. -/
inductive PipelineError where
  | database (msg : String)
  | serialization (msg : String)
  | api (message : String) (status_code : Option Nat)
  | rateLimit (retry_after : Nat)
  | cache (msg : String)
  | validation (msg : String)
  | pythonInterop (msg : String)
  | queue (msg : String)
  | io (msg : String)
  | configuration (msg : String)
  | timeout (seconds : Nat)
  | quarantined (attempts : Nat) (reason : String)
deriving DecidableEq

/-! ## serde_json model

A `serde_json::Value` is modelled by `Json`; a subtree that deserialises to a
`SemanticAnalysis` (the serde encoding produced by
`json!({.. "semantic_analysis": &result.semantic_analysis ..})`) is represented
by the constructor `jSem`, and likewise `jFlash` for a `FlashcardContent`.
`jOther` stands for any other JSON value (one that deserialises to neither).
A stored `response_json` column is a `StoredDoc`: either a document
`serde_json::from_str` parses, or a `malformed` string it rejects. -/

inductive Json where
  | jStr (s : String)
  | jObj (fields : List (String × Json))
  | jSem (sa : SemanticAnalysis)
  | jFlash (fc : FlashcardContent)
  | jOther (raw : String)

def jsonLookup : List (String × Json) → String → Option Json
  | [], _ => none
  | (k', v) :: rest, k => if k' = k then some v else jsonLookup rest k

/-- `serde_json::Value::get(key)`: field lookup on objects, `None` otherwise. -/
def Json.getField : Json → String → Option Json
  | .jObj fields, k => jsonLookup fields k
  | _, _ => none

/-- `serde_json::Value::as_str()`. -/
def Json.asStr : Json → Option String
  | .jStr s => some s
  | _ => none

inductive StoredDoc where
  | malformed (raw : String)
  | parsed (j : Json)

/-- `serde_json::from_str(&row.response_json)?` — propagates a serialization
error on a malformed column. -/
def parseResponseJson : StoredDoc → Except PipelineError Json
  | .malformed raw => .error (.serialization ("invalid JSON: " ++ raw))
  | .parsed j => .ok j

/-- `serde_json::from_value::<SemanticAnalysis>(v)?`. -/
def decodeSemanticAnalysis : Json → Except PipelineError SemanticAnalysis
  | .jSem sa => .ok sa
  | _ => .error (.serialization "invalid type for SemanticAnalysis")

/-- `serde_json::from_value::<FlashcardContent>(v)?`. -/
def decodeFlashcardContent : Json → Except PipelineError FlashcardContent
  | .jFlash fc => .ok fc
  | _ => .error (.serialization "invalid type for FlashcardContent")

/-! ## models/cache.rs -/

/-- `CacheType` from `models/cache.rs`. -/
inductive CacheType where
  | stage1 | stage2
deriving DecidableEq

/-- `CacheStats` from `models/cache.rs`.  The two `f64` fields are modelled
over `ℚ`: the computations at stake are a guarded division of two integer
counters and a fixed-rate multiplication. -/
structure CacheStats where
  total_entries : Int
  stage1_entries : Int
  stage2_entries : Int
  total_hits : Int
  total_misses : Int
  hit_rate : ℚ
  total_tokens_saved : Int
  estimated_cost_saved : ℚ
deriving DecidableEq

/-- `CacheStats::calculate_hit_rate` (the `&mut self` method, as a state
transformer): `hit_rate = if total > 0 { hits / total } else { 0.0 }` with
`total = total_hits + total_misses`. -/
def CacheStats.calculate_hit_rate (s : CacheStats) : CacheStats :=
  let total := s.total_hits + s.total_misses
  { s with hit_rate := if total > 0 then (s.total_hits : ℚ) / (total : ℚ) else 0 }

/-- `CacheStats::estimate_cost_saved`: `$0.15` per 1000 tokens. -/
def CacheStats.estimate_cost_saved (s : CacheStats) : CacheStats :=
  { s with estimated_cost_saved := (s.total_tokens_saved : ℚ) * (15 / 100) / 1000 }

/-! ## database/repositories/cache.rs — state -/

/-- A row of the `stage1_cache` table (the columns `CacheRepository` reads and
writes).  `created_at`/`accessed_at` are filled by the schema's
`CURRENT_TIMESTAMP` default at insert time. -/
structure Stage1Row where
  id : Nat
  vocabulary_id : Int
  cache_key : String
  request_hash : String
  response_json : StoredDoc
  token_count : Int
  model_used : String
  created_at : Timestamp
  accessed_at : Timestamp
  access_count : Int

/-- A row of the `stage2_cache` table. -/
structure Stage2Row where
  id : Nat
  vocabulary_id : Int
  stage1_cache_key : String
  cache_key : String
  request_hash : String
  response_json : StoredDoc
  tsv_output : String
  token_count : Int
  model_used : String
  created_at : Timestamp
  accessed_at : Timestamp
  access_count : Int

/-- A row of the `cache_metrics` table (`UNIQUE(cache_type, date)`,
per the `ON CONFLICT(cache_type, date)` clauses). -/
structure MetricsRow where
  cache_type : CacheType
  hit_count : Int
  miss_count : Int
  total_tokens_saved : Int
  date : Nat
deriving DecidableEq

/-- The cache-side database state: the three tables, a rowid counter, and the
clock (`CURRENT_TIMESTAMP` / `DATE('now')`). -/
structure CacheDb where
  stage1_rows : List Stage1Row
  stage2_rows : List Stage2Row
  metrics : List MetricsRow
  next_id : Nat
  now : Timestamp

/-- `SELECT ... FROM stage1_cache WHERE cache_key = ?` with `fetch_optional`. -/
def stage1Find (rows : List Stage1Row) (key : String) : Option Stage1Row :=
  rows.find? (fun r => r.cache_key == key)

/-- `SELECT ... FROM stage2_cache WHERE cache_key = ?` with `fetch_optional`. -/
def stage2Find (rows : List Stage2Row) (key : String) : Option Stage2Row :=
  rows.find? (fun r => r.cache_key == key)

/-- `update_cache_access("stage1_cache", id)`:
`UPDATE stage1_cache SET access_count = access_count + 1 WHERE id = ?`. -/
def bumpAccessStage1 (rows : List Stage1Row) (id : Nat) : List Stage1Row :=
  rows.map fun r =>
    if r.id == id then { r with access_count := r.access_count + 1 } else r

/-- `update_cache_access("stage2_cache", id)`. -/
def bumpAccessStage2 (rows : List Stage2Row) (id : Nat) : List Stage2Row :=
  rows.map fun r =>
    if r.id == id then { r with access_count := r.access_count + 1 } else r

/-- `increment_cache_metrics`: upsert into `cache_metrics` keyed on
`(cache_type, DATE('now'))`, incrementing `hit_count`/`total_tokens_saved` on
a hit and `miss_count` on a miss. -/
def bumpMetrics (metrics : List MetricsRow) (cache_type : CacheType)
    (is_hit : Bool) (tokens_saved : Int) (today : Nat) : List MetricsRow :=
  if (metrics.find? fun m => m.cache_type == cache_type && m.date == today).isSome then
    metrics.map fun m =>
      if m.cache_type == cache_type && m.date == today then
        if is_hit then
          { m with hit_count := m.hit_count + 1,
                   total_tokens_saved := m.total_tokens_saved + tokens_saved }
        else
          { m with miss_count := m.miss_count + 1 }
      else m
  else
    metrics ++ [if is_hit then ⟨cache_type, 1, 0, tokens_saved, today⟩
                else ⟨cache_type, 0, 1, 0, today⟩]

/-! ## database/repositories/cache.rs — operations -/

/-- `CacheRepository::get_stage1_cache`.  On a found row: bump its access
count, parse `response_json`, extract and decode `semantic_analysis`
(each failure propagates as an error — after the access bump, which was
already committed, since these statements are not inside a transaction),
reconstruct the `Stage1Result` from the row, record a hit metric.  On no row:
record a miss metric and return `None`. -/
def get_stage1_cache (db : CacheDb) (cache_key : String) :
    Except PipelineError (Option Stage1Result) × CacheDb :=
  match stage1Find db.stage1_rows cache_key with
  | some row =>
    let db₁ := { db with stage1_rows := bumpAccessStage1 db.stage1_rows row.id }
    match parseResponseJson row.response_json with
    | .error e => (.error e, db₁)
    | .ok response_data =>
      match response_data.getField "semantic_analysis" with
      | none => (.error (.cache "Missing semantic_analysis in cache"), db₁)
      | some v =>
        match decodeSemanticAnalysis v with
        | .error e => (.error e, db₁)
        | .ok semantic_analysis =>
          let result : Stage1Result :=
            { vocabulary_id := row.vocabulary_id,
              request_id :=
                ((response_data.getField "request_id").bind Json.asStr).getD "cached",
              cache_key := row.cache_key,
              semantic_analysis := semantic_analysis,
              created_at := row.created_at }
          (.ok (some result),
           { db₁ with metrics := bumpMetrics db₁.metrics .stage1 true row.token_count db.now })
  | none =>
    (.ok none, { db with metrics := bumpMetrics db.metrics .stage1 false 0 db.now })

/-- `CacheRepository::save_stage1_cache`: insert a row under
`result.cache_key` whose `response_json` serialises `request_id` and
`semantic_analysis`. -/
def save_stage1_cache (db : CacheDb) (result : Stage1Result) (request_hash : String)
    (token_count : Int) (model_used : String) : Except PipelineError Unit × CacheDb :=
  let response_json : StoredDoc :=
    .parsed (.jObj [("request_id", .jStr result.request_id),
                    ("semantic_analysis", .jSem result.semantic_analysis)])
  let row : Stage1Row :=
    { id := db.next_id, vocabulary_id := result.vocabulary_id,
      cache_key := result.cache_key, request_hash := request_hash,
      response_json := response_json, token_count := token_count,
      model_used := model_used, created_at := db.now, accessed_at := db.now,
      access_count := 0 }
  (.ok (), { db with stage1_rows := db.stage1_rows ++ [row], next_id := db.next_id + 1 })

/-- `CacheRepository::get_stage2_cache` (same structure as stage 1, with
`flashcard_content` and the extra `stage1_cache_key`/`tsv_output` columns). -/
def get_stage2_cache (db : CacheDb) (cache_key : String) :
    Except PipelineError (Option Stage2Result) × CacheDb :=
  match stage2Find db.stage2_rows cache_key with
  | some row =>
    let db₁ := { db with stage2_rows := bumpAccessStage2 db.stage2_rows row.id }
    match parseResponseJson row.response_json with
    | .error e => (.error e, db₁)
    | .ok response_data =>
      match response_data.getField "flashcard_content" with
      | none => (.error (.cache "Missing flashcard_content in cache"), db₁)
      | some v =>
        match decodeFlashcardContent v with
        | .error e => (.error e, db₁)
        | .ok flashcard_content =>
          let result : Stage2Result :=
            { vocabulary_id := row.vocabulary_id,
              stage1_cache_key := row.stage1_cache_key,
              request_id :=
                ((response_data.getField "request_id").bind Json.asStr).getD "cached",
              cache_key := row.cache_key,
              flashcard_content := flashcard_content,
              tsv_output := row.tsv_output,
              created_at := row.created_at }
          (.ok (some result),
           { db₁ with metrics := bumpMetrics db₁.metrics .stage2 true row.token_count db.now })
  | none =>
    (.ok none, { db with metrics := bumpMetrics db.metrics .stage2 false 0 db.now })

/-- `CacheRepository::save_stage2_cache`. -/
def save_stage2_cache (db : CacheDb) (result : Stage2Result) (request_hash : String)
    (token_count : Int) (model_used : String) : Except PipelineError Unit × CacheDb :=
  let response_json : StoredDoc :=
    .parsed (.jObj [("request_id", .jStr result.request_id),
                    ("flashcard_content", .jFlash result.flashcard_content)])
  let row : Stage2Row :=
    { id := db.next_id, vocabulary_id := result.vocabulary_id,
      stage1_cache_key := result.stage1_cache_key,
      cache_key := result.cache_key, request_hash := request_hash,
      response_json := response_json, tsv_output := result.tsv_output,
      token_count := token_count, model_used := model_used,
      created_at := db.now, accessed_at := db.now, access_count := 0 }
  (.ok (), { db with stage2_rows := db.stage2_rows ++ [row], next_id := db.next_id + 1 })

/-- `CacheRepository::get_cache_stats`: entry counts per table, summed
hit/miss/tokens-saved metrics (`SUM` over an empty table is `NULL`, mapped to
`0` by `unwrap_or(0)` — an empty `List.sum` likewise), then
`calculate_hit_rate` and `estimate_cost_saved`.  (Storage-engine failures of
the three reads are external and not modelled.) -/
def get_cache_stats (db : CacheDb) : CacheStats :=
  let stage1_count : Int := db.stage1_rows.length
  let stage2_count : Int := db.stage2_rows.length
  let stats : CacheStats :=
    { total_entries := stage1_count + stage2_count,
      stage1_entries := stage1_count,
      stage2_entries := stage2_count,
      total_hits := (db.metrics.map (·.hit_count)).sum,
      total_misses := (db.metrics.map (·.miss_count)).sum,
      hit_rate := 0,
      total_tokens_saved := (db.metrics.map (·.total_tokens_saved)).sum,
      estimated_cost_saved := 0 }
  stats.calculate_hit_rate.estimate_cost_saved

/-! ## cache_manager.rs -/

/-- The result a `get_stage1_cache` hit reconstructs from a stored row, as a
pure function: `some` exactly when the row's `response_json` parses and holds
a decodable `semantic_analysis` field. -/
def stage1RowResult (row : Stage1Row) : Option Stage1Result :=
  match parseResponseJson row.response_json with
  | .error _ => none
  | .ok response_data =>
    match response_data.getField "semantic_analysis" with
    | none => none
    | some v =>
      match decodeSemanticAnalysis v with
      | .error _ => none
      | .ok sa =>
        some { vocabulary_id := row.vocabulary_id,
               request_id :=
                 ((response_data.getField "request_id").bind Json.asStr).getD "cached",
               cache_key := row.cache_key,
               semantic_analysis := sa,
               created_at := row.created_at }

/-- `CacheManager::get_or_compute_stage1`.  The caller-supplied async closure
is modelled by its outcome `compute_fn`; the `Bool` in the result records
whether the closure was invoked. -/
def get_or_compute_stage1 (digest : String → String) (db : CacheDb)
    (vocabulary_item : VocabularyItem)
    (compute_fn : Except PipelineError (Stage1Result × String × Int × String)) :
    Except PipelineError Stage1Result × CacheDb × Bool :=
  let cache_key := Stage1Result.generate_cache_key digest vocabulary_item
  match get_stage1_cache db cache_key with
  | (.error e, db') => (.error e, db', false)
  | (.ok (some cached_result), db') => (.ok cached_result, db', false)
  | (.ok none, db') =>
    match compute_fn with
    | .error e => (.error e, db', true)
    | .ok (result, request_hash, token_count, model_used) =>
      match save_stage1_cache db' result request_hash token_count model_used with
      | (.error e, db'') => (.error e, db'', true)
      | (.ok _, db'') => (.ok result, db'', true)

/-- `CacheManager::get_or_compute_stage2`. -/
def get_or_compute_stage2 (digest : String → String) (db : CacheDb)
    (vocabulary_item : VocabularyItem) (stage1_result : Stage1Result)
    (compute_fn : Except PipelineError (Stage2Result × String × Int × String)) :
    Except PipelineError Stage2Result × CacheDb × Bool :=
  let cache_key :=
    Stage2Result.generate_cache_key digest vocabulary_item stage1_result.cache_key
  match get_stage2_cache db cache_key with
  | (.error e, db') => (.error e, db', false)
  | (.ok (some cached_result), db') => (.ok cached_result, db', false)
  | (.ok none, db') =>
    match compute_fn with
    | .error e => (.error e, db', true)
    | .ok (result, request_hash, token_count, model_used) =>
      match save_stage2_cache db' result request_hash token_count model_used with
      | (.error e, db'') => (.error e, db'', true)
      | (.ok _, db'') => (.ok result, db'', true)

/-- `CacheWarmupStats` from `cache_manager.rs`. -/
structure CacheWarmupStats where
  total_items : Nat
  stage1_cached : Nat
  stage2_cached : Nat
  stage1_missing : Nat
  stage2_missing : Nat
  estimated_tokens_saved : Int
deriving DecidableEq

/-- The item loop of `warm_cache_for_batch`, threading the database state and
the two hit accumulators. -/
def warmLoop (digest : String → String) :
    CacheDb → List VocabularyItem → Nat → Nat →
      Except PipelineError (Nat × Nat) × CacheDb
  | db, [], stage1_hits, stage2_hits => (.ok (stage1_hits, stage2_hits), db)
  | db, item :: rest, stage1_hits, stage2_hits =>
    let stage1_key := Stage1Result.generate_cache_key digest item
    match get_stage1_cache db stage1_key with
    | (.error e, db') => (.error e, db')
    | (.ok none, db') => warmLoop digest db' rest stage1_hits stage2_hits
    | (.ok (some stage1_result), db') =>
      let stage2_key :=
        Stage2Result.generate_cache_key digest item stage1_result.cache_key
      match get_stage2_cache db' stage2_key with
      | (.error e, db'') => (.error e, db'')
      | (.ok r2, db'') =>
        warmLoop digest db'' rest (stage1_hits + 1)
          (if r2.isSome then stage2_hits + 1 else stage2_hits)

/-- `CacheManager::warm_cache_for_batch`: count, per item, whether its Stage-1
entry (and, only then, the derived Stage-2 entry) is already cached; no
producer is involved (the function takes none) and nothing is saved.
`total_tokens_saved` stays at its initial `0`. -/
def warm_cache_for_batch (digest : String → String) (db : CacheDb)
    (vocabulary_items : List VocabularyItem) :
    Except PipelineError CacheWarmupStats × CacheDb :=
  match warmLoop digest db vocabulary_items 0 0 with
  | (.error e, db') => (.error e, db')
  | (.ok (stage1_hits, stage2_hits), db') =>
    (.ok { total_items := vocabulary_items.length,
           stage1_cached := stage1_hits,
           stage2_cached := stage2_hits,
           stage1_missing := vocabulary_items.length - stage1_hits,
           stage2_missing := vocabulary_items.length - stage2_hits,
           estimated_tokens_saved := 0 }, db')

/-- The result a `get_stage2_cache` hit reconstructs from a stored row
(`some` exactly when the row parses back). -/
def stage2RowResult (row : Stage2Row) : Option Stage2Result :=
  match parseResponseJson row.response_json with
  | .error _ => none
  | .ok response_data =>
    match response_data.getField "flashcard_content" with
    | none => none
    | some v =>
      match decodeFlashcardContent v with
      | .error _ => none
      | .ok fc =>
        some { vocabulary_id := row.vocabulary_id,
               stage1_cache_key := row.stage1_cache_key,
               request_id :=
                 ((response_data.getField "request_id").bind Json.asStr).getD "cached",
               cache_key := row.cache_key,
               flashcard_content := fc,
               tsv_output := row.tsv_output,
               created_at := row.created_at }

/-- Is an `Except` outcome an error? -/
def isErr {α : Type} : Except PipelineError α → Bool
  | .error _ => true
  | .ok _ => false

/-- The persistent *content* of a `stage1_cache` row: every column except the
access statistics (`accessed_at`, `access_count`), which lookups bump. -/
structure Stage1RowContent where
  id : Nat
  vocabulary_id : Int
  cache_key : String
  request_hash : String
  response_json : StoredDoc
  token_count : Int
  model_used : String
  created_at : Timestamp

def Stage1Row.content (r : Stage1Row) : Stage1RowContent :=
  { id := r.id, vocabulary_id := r.vocabulary_id, cache_key := r.cache_key,
    request_hash := r.request_hash, response_json := r.response_json,
    token_count := r.token_count, model_used := r.model_used,
    created_at := r.created_at }

/-- The persistent *content* of a `stage2_cache` row. -/
structure Stage2RowContent where
  id : Nat
  vocabulary_id : Int
  stage1_cache_key : String
  cache_key : String
  request_hash : String
  response_json : StoredDoc
  tsv_output : String
  token_count : Int
  model_used : String
  created_at : Timestamp

def Stage2Row.content (r : Stage2Row) : Stage2RowContent :=
  { id := r.id, vocabulary_id := r.vocabulary_id,
    stage1_cache_key := r.stage1_cache_key, cache_key := r.cache_key,
    request_hash := r.request_hash, response_json := r.response_json,
    tsv_output := r.tsv_output, token_count := r.token_count,
    model_used := r.model_used, created_at := r.created_at }

/-- Two cache states hold the same cached content: identical stage-1 and
stage-2 entries (up to access statistics) and no rows inserted or removed.
Hit/miss metrics and access counters may differ. -/
def cacheContentEq (db₁ db₂ : CacheDb) : Prop :=
  db₁.stage1_rows.map Stage1Row.content = db₂.stage1_rows.map Stage1Row.content ∧
  db₁.stage2_rows.map Stage2Row.content = db₂.stage2_rows.map Stage2Row.content ∧
  db₁.next_id = db₂.next_id ∧ db₁.now = db₂.now

/-- The `stage1_cache` row `save_stage1_cache` inserts for `result` (rowid
`i`, clock `now`). -/
def savedStage1Row (result : Stage1Result) (request_hash : String)
    (token_count : Int) (model_used : String) (i : Nat) (now : Timestamp) :
    Stage1Row :=
  { id := i, vocabulary_id := result.vocabulary_id,
    cache_key := result.cache_key, request_hash := request_hash,
    response_json := .parsed (.jObj
      [("request_id", .jStr result.request_id),
       ("semantic_analysis", .jSem result.semantic_analysis)]),
    token_count := token_count, model_used := model_used, created_at := now,
    accessed_at := now, access_count := 0 }

/-- "The item's Stage-1 entry exists": a `stage1_cache` row is stored under
the item's derived Stage-1 key. -/
def stage1CachedB (digest : String → String) (db : CacheDb)
    (item : VocabularyItem) : Bool :=
  (stage1Find db.stage1_rows (Stage1Result.generate_cache_key digest item)).isSome

/-- "The item's Stage-1 entry exists and its derived Stage-2 entry exists":
the Stage-2 key is derived from the stored Stage-1 row's `cache_key` (which
equals the searched Stage-1 key). -/
def stage2CachedB (digest : String → String) (db : CacheDb)
    (item : VocabularyItem) : Bool :=
  match stage1Find db.stage1_rows (Stage1Result.generate_cache_key digest item) with
  | some row =>
    (stage2Find db.stage2_rows
      (Stage2Result.generate_cache_key digest item row.cache_key)).isSome
  | none => false

/-! ## models/queue.rs -/

/-- `ProcessingStatus` from `models/queue.rs`. -/
inductive ProcessingStatus where
  | pending | inProgress | completed | failed | quarantined
deriving DecidableEq

/-- `ProcessingStage` from `models/queue.rs`. -/
inductive ProcessingStage where
  | stage1 | stage2 | complete
deriving DecidableEq

/-- `QueueRepository::status_to_string`. -/
def statusToString : ProcessingStatus → String
  | .pending => "pending"
  | .inProgress => "in_progress"
  | .completed => "completed"
  | .failed => "failed"
  | .quarantined => "quarantined"

/-- `BatchProgress` from `models/queue.rs` (`items_per_second : f64` modelled
over `ℚ`). -/
structure BatchProgress where
  batch_id : String
  total_items : Int
  completed_items : Int
  failed_items : Int
  quarantined_items : Int
  pending_items : Int
  in_progress_items : Int
  start_time : Timestamp
  estimated_completion : Option Timestamp
  items_per_second : ℚ
deriving DecidableEq

/-- `BatchProgress::is_complete`. -/
def BatchProgress.is_complete (p : BatchProgress) : Bool :=
  p.pending_items == 0 && p.in_progress_items == 0

/-- `BatchProgress::estimate_completion` (`Utc::now()` passed explicitly;
`seconds_remaining as i64` truncates, modelled by `Rat.floor`). -/
def BatchProgress.estimate_completion (p : BatchProgress) (now : Timestamp) :
    BatchProgress :=
  if p.items_per_second > 0 ∧ p.pending_items > 0 then
    let seconds_remaining : ℚ := (p.pending_items : ℚ) / p.items_per_second
    { p with estimated_completion := some (now + seconds_remaining.floor.toNat) }
  else p

/-! ## database/repositories/queue.rs — state -/

/-- A row of the `processing_queue` table as stored: `status` and `stage` are
TEXT columns (`row_to_item` validates them on read). -/
structure QueueRow where
  id : Int
  vocabulary_id : Int
  batch_id : String
  status : String
  stage : String
  retry_count : Int
  max_retries : Int
  error_message : Option String
  created_at : Timestamp
  updated_at : Timestamp
  started_at : Option Timestamp
  completed_at : Option Timestamp
deriving DecidableEq

/-- A row of the `batch_metadata` table (columns the repository reads and
writes; unset columns take the schema defaults at insert). -/
structure BatchMetaRow where
  batch_id : String
  total_items : Int
  status : String
  completed_items : Int
  failed_items : Int
  quarantined_items : Int
  start_time : Timestamp
  end_time : Option Timestamp
deriving DecidableEq

/-- The queue-side database state (the checkpoint table is untouched by the
operations verified here). -/
structure QueueDb where
  queue : List QueueRow
  batches : List BatchMetaRow
  next_id : Int
  now : Timestamp
deriving DecidableEq

/-- `SELECT ... FROM processing_queue WHERE id = ?` (`id` is the primary
key). -/
def queueFind (rows : List QueueRow) (item_id : Int) : Option QueueRow :=
  rows.find? (fun r => r.id == item_id)

/-- `UPDATE processing_queue ... WHERE id = ?`. -/
def queueUpdate (rows : List QueueRow) (item_id : Int) (f : QueueRow → QueueRow) :
    List QueueRow :=
  rows.map fun r => if r.id == item_id then f r else r

/-! ## database/repositories/queue.rs — operations -/

/-- The `processing_queue` rows created by `enqueue_batch`:
`(vocabulary_id, batch_id, 'pending', 'stage1', 0, 3)`, with sequential
rowids and timestamp defaults. -/
def enqueueRows : List Int → String → Int → Timestamp → List QueueRow
  | [], _, _, _ => []
  | vocab_id :: rest, batch_id, next, now =>
    { id := next, vocabulary_id := vocab_id, batch_id := batch_id,
      status := "pending", stage := "stage1", retry_count := 0, max_retries := 3,
      error_message := none, created_at := now, updated_at := now,
      started_at := none, completed_at := none }
      :: enqueueRows rest batch_id (next + 1) now

/-- `QueueRepository::enqueue_batch`: one `batch_metadata` insert and one
`processing_queue` insert per id, all inside a single transaction.
`fail_at = some k` injects a storage failure into the k-th INSERT statement
(`0` is the metadata insert, `i + 1` the i-th item insert); the transaction
then rolls back, leaving the state untouched.  On success the call returns
the number of items inserted. -/
def enqueue_batch (db : QueueDb) (vocabulary_ids : List Int) (batch_id : String)
    (fail_at : Option Nat) : Except PipelineError Int × QueueDb :=
  let committed : QueueDb :=
    { db with
      batches := db.batches ++
        [{ batch_id := batch_id, total_items := vocabulary_ids.length,
           status := "pending", completed_items := 0, failed_items := 0,
           quarantined_items := 0, start_time := db.now, end_time := none }],
      queue := db.queue ++ enqueueRows vocabulary_ids batch_id db.next_id db.now,
      next_id := db.next_id + vocabulary_ids.length }
  match fail_at with
  | some k =>
    if k ≤ vocabulary_ids.length then (.error (.database "injected failure"), db)
    else (.ok (vocabulary_ids.length : Int), committed)
  | none => (.ok (vocabulary_ids.length : Int), committed)

/-- `QueueRepository::get_batch_progress`: read-only aggregation of the batch's
queue rows by status string, plus throughput/ETA once at least one item
completed and time has elapsed. -/
def get_batch_progress (db : QueueDb) (batch_id : String) :
    Except PipelineError BatchProgress :=
  match db.batches.find? (fun b => b.batch_id == batch_id) with
  | none => .error (.validation ("Batch " ++ batch_id ++ " not found"))
  | some metadata =>
    let rows := db.queue.filter (fun r => r.batch_id == batch_id)
    let count : String → Int := fun s => ((rows.filter (fun r => r.status == s)).length : Int)
    let progress : BatchProgress :=
      { batch_id := batch_id, total_items := metadata.total_items,
        completed_items := count "completed", failed_items := count "failed",
        quarantined_items := count "quarantined", pending_items := count "pending",
        in_progress_items := count "in_progress", start_time := metadata.start_time,
        estimated_completion := none, items_per_second := 0 }
    let elapsed_seconds : ℚ := ((db.now : Int) - (metadata.start_time : Int) : Int)
    if elapsed_seconds > 0 ∧ progress.completed_items > 0 then
      .ok (({ progress with items_per_second :=
                (progress.completed_items : ℚ) / elapsed_seconds }).estimate_completion db.now)
    else .ok progress

/-- `QueueRepository::update_batch_progress` (private): recompute the owning
batch's progress and write the aggregate back to `batch_metadata`.
`fetch_one` on a missing item id is a storage error. -/
def update_batch_progress (db : QueueDb) (item_id : Int) :
    Except PipelineError Unit × QueueDb :=
  match queueFind db.queue item_id with
  | none => (.error (.database "no rows returned"), db)
  | some row =>
    match get_batch_progress db row.batch_id with
    | .error e => (.error e, db)
    | .ok progress =>
      let status :=
        if progress.is_complete then
          if progress.failed_items > 0 ∨ progress.quarantined_items > 0 then "partial"
          else "completed"
        else "in_progress"
      (.ok (),
       { db with batches := db.batches.map fun b =>
           if b.batch_id == row.batch_id then
             { b with completed_items := progress.completed_items,
                      failed_items := progress.failed_items,
                      quarantined_items := progress.quarantined_items,
                      status := status,
                      end_time := if progress.is_complete then some db.now else b.end_time }
           else b })

/-- `QueueRepository::update_status`: unconditionally write the new status
string (plus `started_at` on InProgress, `completed_at` on Completed, always
`updated_at`); a terminal status then triggers `update_batch_progress`.
The UPDATE itself is not transactional with the progress write. -/
def update_status (db : QueueDb) (item_id : Int) (status : ProcessingStatus)
    (error_message : Option String) : Except PipelineError Unit × QueueDb :=
  let status_str := statusToString status
  let upd : QueueRow → QueueRow := fun r =>
    match status with
    | .inProgress =>
      { r with status := status_str, error_message := error_message,
               started_at := some db.now, updated_at := db.now }
    | .completed =>
      { r with status := status_str, error_message := error_message,
               completed_at := some db.now, updated_at := db.now }
    | _ =>
      { r with status := status_str, error_message := error_message,
               updated_at := db.now }
  let db₁ := { db with queue := queueUpdate db.queue item_id upd }
  if status = .completed ∨ status = .failed ∨ status = .quarantined then
    match update_batch_progress db₁ item_id with
    | (.error e, db₂) => (.error e, db₂)
    | (.ok _, db₂) => (.ok (), db₂)
  else (.ok (), db₁)

/-- `QueueRepository::complete_stage`: inside a transaction, read the item's
current stage string; `"stage1"` advances to `(stage2, pending)`, `"stage2"`
advances to `(complete, completed, completed_at=now)`, anything else is a
Validation error and the transaction rolls back with no write.  `fetch_one`
on a missing item id is a storage error. -/
def complete_stage (db : QueueDb) (item_id : Int) :
    Except PipelineError ProcessingStage × QueueDb :=
  match queueFind db.queue item_id with
  | none => (.error (.database "no rows returned"), db)
  | some row =>
    if row.stage = "stage1" then
      (.ok .stage2,
       { db with queue := queueUpdate db.queue item_id fun r =>
           { r with stage := "stage2", status := "pending", updated_at := db.now } })
    else if row.stage = "stage2" then
      (.ok .complete,
       { db with queue := queueUpdate db.queue item_id fun r =>
           { r with stage := "complete", status := "completed",
                    completed_at := some db.now, updated_at := db.now } })
    else
      (.error (.validation ("Invalid stage transition from: " ++ row.stage)), db)

/-- `QueueRepository::increment_retry`: read `retry_count`/`max_retries`,
increment; at or past the bound, quarantine and report "no more retries"
(`false`), otherwise reset to pending and report "retry eligible" (`true`). -/
def increment_retry (db : QueueDb) (item_id : Int) :
    Except PipelineError Bool × QueueDb :=
  match queueFind db.queue item_id with
  | none => (.error (.database "no rows returned"), db)
  | some row =>
    let new_retry_count := row.retry_count + 1
    if new_retry_count ≥ row.max_retries then
      (.ok false,
       { db with queue := queueUpdate db.queue item_id fun r =>
           { r with status := "quarantined", retry_count := new_retry_count,
                    updated_at := db.now } })
    else
      (.ok true,
       { db with queue := queueUpdate db.queue item_id fun r =>
           { r with status := "pending", retry_count := new_retry_count,
                    updated_at := db.now } })

/-! ## Concrete inputs used by counterexamples and witnesses -/

/-- An empty cache database. -/
def cacheDbEmpty : CacheDb :=
  { stage1_rows := [], stage2_rows := [], metrics := [], next_id := 0, now := 7 }

/-- An empty queue database. -/
def queueDbEmpty : QueueDb :=
  { queue := [], batches := [], next_id := 1, now := 5 }

/-- A concrete `processing_queue` row. -/
def qrow (status stage : String) (retry_count max_retries : Int) : QueueRow :=
  { id := 1, vocabulary_id := 10, batch_id := "b1", status := status,
    stage := stage, retry_count := retry_count, max_retries := max_retries,
    error_message := none, created_at := 0, updated_at := 0,
    started_at := none, completed_at := none }

/-- A queue database holding the single row `r` plus its batch metadata. -/
def qdbOf (r : QueueRow) : QueueDb :=
  { queue := [r],
    batches := [{ batch_id := "b1", total_items := 1, status := "pending",
                  completed_items := 0, failed_items := 0, quarantined_items := 0,
                  start_time := 0, end_time := none }],
    next_id := 2, now := 5 }

/-- A concrete vocabulary item. -/
def itemSpring : VocabularyItem :=
  { id := some 1, korean := "봄", english := "spring", hanja := none,
    category := "noun", subcategory := none, tags := [],
    difficulty_level := .beginner, source := "manual",
    example_sentence := none, notes := none, metadata := [],
    created_at := 0, updated_at := 0 }

/-- Same semantic fields as `itemSpring` except `hanja` is `Some("")` instead of
`None`; also a different id and timestamp.  Its SHA-256 input is byte-for-byte
identical to `itemSpring`'s. -/
def itemSpringEmptyHanja : VocabularyItem :=
  { itemSpring with hanja := some "", id := some 2, created_at := 5 }

/-- Same as `itemSpring` except for the translation/meaning string. -/
def itemSpringtime : VocabularyItem :=
  { itemSpring with english := "springtime" }

/-- A concrete semantic analysis payload. -/
def saSample : SemanticAnalysis :=
  { primary_meaning := "spring season", alternative_meanings := [],
    connotations := [], register := "neutral", usage_contexts := [],
    cultural_notes := none, frequency := .common, formality := .neutral }

/-- A concrete Stage-1 result for `itemSpring` carrying the item's derived
cache key (as pipeline producers do). -/
def stage1ResSpring : Stage1Result :=
  { vocabulary_id := 1, request_id := "req-1",
    cache_key := Stage1Result.generate_cache_key id itemSpring,
    semantic_analysis := saSample, created_at := 0 }

/-- A Stage-1 result whose `cache_key` field does NOT match the derived key of
`itemSpring`. -/
def stage1ResBogusKey : Stage1Result :=
  { stage1ResSpring with cache_key := "bogus" }

/-- A stored stage-1 row under `itemSpring`'s derived key whose
`response_json` column does not parse. -/
def malformedRow : Stage1Row :=
  { id := 0, vocabulary_id := 1,
    cache_key := Stage1Result.generate_cache_key id itemSpring,
    request_hash := "h", response_json := .malformed "not json",
    token_count := 5, model_used := "m", created_at := 0, accessed_at := 0,
    access_count := 0 }

/-- A cache database holding only the malformed row. -/
def dbMalformed : CacheDb :=
  { stage1_rows := [malformedRow], stage2_rows := [], metrics := [],
    next_id := 1, now := 7 }

/-- Five distinct vocabulary items for the warm-cache scenario. -/
def wItems : List VocabularyItem :=
  [{ itemSpring with english := "w1" }, { itemSpring with english := "w2" },
   { itemSpring with english := "w3" }, { itemSpring with english := "w4" },
   { itemSpring with english := "w5" }]

/-- A well-formed cached stage-1 row for the first warm-cache item. -/
def wRow1 : Stage1Row :=
  { id := 0, vocabulary_id := 1,
    cache_key := Stage1Result.generate_cache_key id { itemSpring with english := "w1" },
    request_hash := "h1",
    response_json := .parsed (.jObj [("request_id", .jStr "r1"),
                                     ("semantic_analysis", .jSem saSample)]),
    token_count := 3, model_used := "m", created_at := 0, accessed_at := 0,
    access_count := 0 }

/-- A well-formed cached stage-1 row for the second warm-cache item. -/
def wRow2 : Stage1Row :=
  { wRow1 with
    id := 1,
    cache_key := Stage1Result.generate_cache_key id { itemSpring with english := "w2" } }

/-- A cache database where exactly two of the five warm-cache items have a
stage-1 entry and nothing has a stage-2 entry. -/
def dbWarm : CacheDb :=
  { stage1_rows := [wRow1, wRow2], stage2_rows := [], metrics := [],
    next_id := 2, now := 7 }

/-! ## String cancellation helpers (for key-sensitivity reasoning) -/

theorem strDataInj {s₁ s₂ : String} (h : s₁.data = s₂.data) : s₁ = s₂ := by
  cases s₁; cases s₂; exact congrArg String.mk h

theorem strAppendCancelLeft {a b c : String} (h : a ++ b = a ++ c) : b = c := by
  have hd : a.data ++ b.data = a.data ++ c.data := by
    rw [← String.data_append a b, ← String.data_append a c, h]
  exact strDataInj (List.append_cancel_left hd)

theorem strAppendCancelRight {a b c : String} (h : a ++ c = b ++ c) : a = b := by
  have hd : a.data ++ c.data = b.data ++ c.data := by
    rw [← String.data_append a c, ← String.data_append b c, h]
  exact strDataInj (List.append_cancel_right hd)

/-- If two items agree on `korean`, `category`, `hanja` and `example_sentence`,
then their hash inputs agree exactly when their `english` fields agree. -/
theorem cacheKeyInput_eq_iff_english (v₁ v₂ : VocabularyItem)
    (hk : v₁.korean = v₂.korean) (hc : v₁.category = v₂.category)
    (hh : v₁.hanja = v₂.hanja) (hx : v₁.example_sentence = v₂.example_sentence) :
    cacheKeyInput v₁ = cacheKeyInput v₂ ↔ v₁.english = v₂.english := by
  unfold cacheKeyInput
  rw [hk, hc, hh, hx]
  constructor
  · intro h
    have h₁ := strAppendCancelRight h
    have h₂ := strAppendCancelRight h₁
    have h₃ := strAppendCancelRight h₂
    exact strAppendCancelLeft h₃
  · intro h; rw [h]

/-- Claim C7, counterexample: the items `itemSpring` and `itemSpringEmptyHanja`
differ in a semantic field (`hanja`: `None` vs `Some("")`), yet their SHA-256
inputs are byte-for-byte identical — `generate_cache_key` concatenates the
fields without separators and skips absent optionals — so their cache keys are
identical with certainty (shown here for the identity digest; equality of the
hash inputs forces equality of the digests for every digest function,
including real SHA-256).  This refutes "any difference in a semantic field
produces a different key with overwhelming probability". -/
theorem C7_counterexample :
    itemSpring.hanja ≠ itemSpringEmptyHanja.hanja ∧
    cacheKeyInput itemSpring = cacheKeyInput itemSpringEmptyHanja ∧
    VocabularyItem.generate_cache_key id itemSpring =
      VocabularyItem.generate_cache_key id itemSpringEmptyHanja := by
  refine ⟨by decide, by decide, by decide⟩

/-- Claim C7 (corrected): let `digest` be the (collision-free, modelled
injective) SHA-256 hex digest.  For any two vocabulary items that agree on
`korean`, `category`, `hanja` and `example_sentence` — their ids, timestamps
and all other non-semantic fields may differ freely —
(a) if they also agree on `english`, their cache keys are identical, and
(b) if their `english` (translation/meaning) strings differ, their cache keys
differ.  (The unrestricted claim "any difference in a semantic field gives a
different key" is false: see the counterexample, where `hanja = None` versus
`Some("")` yields identical keys.) -/
theorem C7_key_sensitivity (digest : String → String)
    (hinj : Function.Injective digest) (v₁ v₂ : VocabularyItem)
    (hk : v₁.korean = v₂.korean) (hc : v₁.category = v₂.category)
    (hh : v₁.hanja = v₂.hanja) (hx : v₁.example_sentence = v₂.example_sentence) :
    (v₁.english = v₂.english →
      v₁.generate_cache_key digest = v₂.generate_cache_key digest) ∧
    (v₁.english ≠ v₂.english →
      v₁.generate_cache_key digest ≠ v₂.generate_cache_key digest) := by
  constructor
  · intro h
    unfold VocabularyItem.generate_cache_key
    rw [(cacheKeyInput_eq_iff_english v₁ v₂ hk hc hh hx).mpr h]
  · intro hne hkey
    exact hne ((cacheKeyInput_eq_iff_english v₁ v₂ hk hc hh hx).mp (hinj hkey))

/-- Witness for C7: concrete items differing only in their translation string
have different keys, and concrete items with identical semantic fields but
different ids/timestamps have identical keys. -/
theorem C7_witness :
    VocabularyItem.generate_cache_key id itemSpring ≠
      VocabularyItem.generate_cache_key id itemSpringtime ∧
    VocabularyItem.generate_cache_key id itemSpring =
      VocabularyItem.generate_cache_key id
        { itemSpring with id := some 7, created_at := 99, updated_at := 100 } := by
  constructor
  · exact (C7_key_sensitivity id (fun _ _ h => h) itemSpring itemSpringtime
      rfl rfl rfl rfl).2 (by decide)
  · exact (C7_key_sensitivity id (fun _ _ h => h) itemSpring
      { itemSpring with id := some 7, created_at := 99, updated_at := 100 }
      rfl rfl rfl rfl).1 rfl

/-! ## Queue repository lemmas -/

theorem queueFind_queueUpdate (rows : List QueueRow) (item_id : Int)
    (f : QueueRow → QueueRow) (hf : ∀ r, (f r).id = r.id) :
    queueFind (queueUpdate rows item_id f) item_id =
      (queueFind rows item_id).map f := by
  induction rows with
  | nil => rfl
  | cons r rest ih =>
    unfold queueFind queueUpdate at *
    by_cases h : (r.id == item_id) = true
    · rw [List.map_cons, if_pos h,
        @List.find?_cons_of_pos _ (fun x => x.id == item_id) (f r) _
          (by show ((f r).id == item_id) = true; rw [hf r]; exact h),
        @List.find?_cons_of_pos _ (fun x => x.id == item_id) r _ h]
      rfl
    · rw [List.map_cons, if_neg h,
        @List.find?_cons_of_neg _ (fun x => x.id == item_id) r _ h,
        @List.find?_cons_of_neg _ (fun x => x.id == item_id) r _ h]
      exact ih

theorem enqueueRows_length (ids : List Int) (batch_id : String) (next : Int)
    (now : Timestamp) : (enqueueRows ids batch_id next now).length = ids.length := by
  induction ids generalizing next with
  | nil => rfl
  | cons _ rest ih => simpa [enqueueRows] using ih (next + 1)

theorem enqueueRows_mem (ids : List Int) (batch_id : String) (next : Int)
    (now : Timestamp) (r : QueueRow) (hr : r ∈ enqueueRows ids batch_id next now) :
    r.batch_id = batch_id ∧ r.status = "pending" ∧ r.stage = "stage1" ∧
      r.retry_count = 0 ∧ r.max_retries = 3 := by
  induction ids generalizing next with
  | nil => cases hr
  | cons _ rest ih =>
    rcases List.mem_cons.mp hr with h | h
    · subst h; exact ⟨rfl, rfl, rfl, rfl, rfl⟩
    · exact ih (next + 1) h

/-! ## Claims C3–C6 (queue state machine) -/

/-- Claim C3 (confirmed): `enqueue_batch(item_ids, batch_id)` is atomic.  With
no pre-existing rows for `batch_id`: on success (no injected failure) the
state holds exactly `N = |item_ids|` queue rows for the batch — each created
pending, at stage1, with `retry_count = 0` (and `max_retries = 3`) — plus
exactly one batch-metadata row, and the call returns `N`; a storage failure
injected into any of the `N + 1` INSERT statements rolls the transaction back,
leaving the state exactly as before — never a partial set. -/
theorem C3_enqueue_batch_atomic (db : QueueDb) (ids : List Int) (batch_id : String)
    (hq : ∀ r ∈ db.queue, r.batch_id ≠ batch_id)
    (hb : ∀ b ∈ db.batches, b.batch_id ≠ batch_id) :
    ((enqueue_batch db ids batch_id none).1 = .ok (ids.length : Int) ∧
     ((enqueue_batch db ids batch_id none).2.queue.filter
        (fun r => r.batch_id == batch_id)).length = ids.length ∧
     (∀ r ∈ (enqueue_batch db ids batch_id none).2.queue.filter
        (fun r => r.batch_id == batch_id),
        r.status = "pending" ∧ r.stage = "stage1" ∧ r.retry_count = 0 ∧
          r.max_retries = 3) ∧
     ((enqueue_batch db ids batch_id none).2.batches.filter
        (fun b => b.batch_id == batch_id)).length = 1) ∧
    (∀ k, k ≤ ids.length →
      enqueue_batch db ids batch_id (some k) =
        (.error (.database "injected failure"), db)) := by
  constructor
  · have hqf : db.queue.filter (fun r => r.batch_id == batch_id) = [] := by
      apply List.filter_eq_nil_iff.mpr
      intro r hr
      simpa using hq r hr
    have hbf : db.batches.filter (fun b => b.batch_id == batch_id) = [] := by
      apply List.filter_eq_nil_iff.mpr
      intro b hbmem
      simpa using hb b hbmem
    have hrows : (enqueueRows ids batch_id db.next_id db.now).filter
        (fun r => r.batch_id == batch_id) = enqueueRows ids batch_id db.next_id db.now := by
      apply List.filter_eq_self.mpr
      intro r hr
      simpa using (enqueueRows_mem ids batch_id db.next_id db.now r hr).1
    refine ⟨rfl, ?_, ?_, ?_⟩
    · simp only [enqueue_batch, List.filter_append, hqf, hrows, List.nil_append]
      exact enqueueRows_length ids batch_id db.next_id db.now
    · intro r hr
      simp only [enqueue_batch, List.filter_append, hqf, hrows, List.nil_append] at hr
      exact (enqueueRows_mem ids batch_id db.next_id db.now r hr).2
    · simp [enqueue_batch, List.filter_append, hbf]
  · intro k hk
    simp [enqueue_batch, hk]

/-- Witness for C3: enqueueing three items into an empty store yields three
pending stage1 rows and returns 3; an injected failure on the second item
insert leaves the store untouched. -/
theorem C3_witness :
    (enqueue_batch queueDbEmpty [11, 12, 13] "batch-1" none).1 = .ok 3 ∧
    enqueue_batch queueDbEmpty [11, 12, 13] "batch-1" (some 2) =
      (.error (.database "injected failure"), queueDbEmpty) := by
  have h := C3_enqueue_batch_atomic queueDbEmpty [11, 12, 13] "batch-1"
    (by intro r hr; cases hr) (by intro b hb; cases hb)
  exact ⟨h.1.1, h.2 2 (by norm_num)⟩

/-- Claim C4 (confirmed): `complete_stage(item_id)` reads the item's current
stage; at `stage1` it moves the row to `(stage2, pending)`; at `stage2` it
moves it to `(complete, completed)` stamping `completed_at`; for any other
stored stage — including `complete`, i.e. calling it again on an
already-completed item — it returns a Validation error and leaves the state
completely unchanged (the transaction commits nothing). -/
theorem C4_complete_stage (db : QueueDb) (item_id : Int) (row : QueueRow)
    (hfind : queueFind db.queue item_id = some row) :
    (row.stage = "stage1" →
      (complete_stage db item_id).1 = .ok .stage2 ∧
      queueFind (complete_stage db item_id).2.queue item_id =
        some { row with stage := "stage2", status := "pending",
                        updated_at := db.now }) ∧
    (row.stage = "stage2" →
      (complete_stage db item_id).1 = .ok .complete ∧
      queueFind (complete_stage db item_id).2.queue item_id =
        some { row with stage := "complete", status := "completed",
                        completed_at := some db.now, updated_at := db.now }) ∧
    (row.stage ≠ "stage1" → row.stage ≠ "stage2" →
      complete_stage db item_id =
        (.error (.validation ("Invalid stage transition from: " ++ row.stage)), db)) := by
  refine ⟨?_, ?_, ?_⟩
  · intro h1
    have hq : (complete_stage db item_id).2.queue =
        queueUpdate db.queue item_id (fun r =>
          { r with stage := "stage2", status := "pending", updated_at := db.now }) := by
      unfold complete_stage
      rw [hfind]
      simp [h1]
    constructor
    · unfold complete_stage
      rw [hfind]
      simp [h1]
    · rw [hq, queueFind_queueUpdate db.queue item_id
        (fun r => { r with stage := "stage2", status := "pending", updated_at := db.now })
        (fun r => rfl), hfind]
      rfl
  · intro h2
    have hne : row.stage ≠ "stage1" := by rw [h2]; decide
    have hq : (complete_stage db item_id).2.queue =
        queueUpdate db.queue item_id (fun r =>
          { r with stage := "complete", status := "completed",
                   completed_at := some db.now, updated_at := db.now }) := by
      unfold complete_stage
      rw [hfind]
      simp [h2, hne]
    constructor
    · unfold complete_stage
      rw [hfind]
      simp [h2, hne]
    · rw [hq, queueFind_queueUpdate db.queue item_id
        (fun r => { r with stage := "complete", status := "completed",
                           completed_at := some db.now, updated_at := db.now })
        (fun r => rfl), hfind]
      rfl
  · intro hne1 hne2
    unfold complete_stage
    rw [hfind]
    simp [hne1, hne2]

/-- Witness for C4: a stage1 row advances to `(stage2, pending)`; a
`complete` row produces a Validation error and an unchanged state. -/
theorem C4_witness :
    (complete_stage (qdbOf (qrow "pending" "stage1" 0 3)) 1).1 = .ok .stage2 ∧
    complete_stage (qdbOf (qrow "completed" "complete" 0 3)) 1 =
      (.error (.validation "Invalid stage transition from: complete"),
       qdbOf (qrow "completed" "complete" 0 3)) := by
  constructor
  · exact ((C4_complete_stage (qdbOf (qrow "pending" "stage1" 0 3)) 1
      (qrow "pending" "stage1" 0 3) rfl).1 rfl).1
  · exact (C4_complete_stage (qdbOf (qrow "completed" "complete" 0 3)) 1
      (qrow "completed" "complete" 0 3) rfl).2.2 (by decide) (by decide)

/-- Claim C5 (confirmed): `increment_retry(item_id)` increments `retry_count`
by one; when the new count reaches (`>=`) `max_retries` the item is
quarantined and the call returns "no more retries" (`false`); otherwise the
item is reset to pending and the call returns "retry eligible" (`true`).
(For the reachable states `retry_count < max_retries`, "reaches" and `>=`
coincide.)  The three-successive-calls scenario is exercised in the
witness. -/
theorem C5_increment_retry (db : QueueDb) (item_id : Int) (row : QueueRow)
    (hfind : queueFind db.queue item_id = some row) :
    (row.retry_count + 1 ≥ row.max_retries →
      (increment_retry db item_id).1 = .ok false ∧
      queueFind (increment_retry db item_id).2.queue item_id =
        some { row with status := "quarantined",
                        retry_count := row.retry_count + 1,
                        updated_at := db.now }) ∧
    (row.retry_count + 1 < row.max_retries →
      (increment_retry db item_id).1 = .ok true ∧
      queueFind (increment_retry db item_id).2.queue item_id =
        some { row with status := "pending",
                        retry_count := row.retry_count + 1,
                        updated_at := db.now }) := by
  constructor
  · intro hge
    have hq : (increment_retry db item_id).2.queue =
        queueUpdate db.queue item_id (fun r =>
          { r with status := "quarantined", retry_count := row.retry_count + 1,
                   updated_at := db.now }) := by
      unfold increment_retry
      rw [hfind]
      simp [hge]
    constructor
    · unfold increment_retry
      rw [hfind]
      simp [hge]
    · rw [hq, queueFind_queueUpdate db.queue item_id
        (fun r => { r with status := "quarantined", retry_count := row.retry_count + 1,
                           updated_at := db.now })
        (fun r => rfl), hfind]
      rfl
  · intro hlt
    have hq : (increment_retry db item_id).2.queue =
        queueUpdate db.queue item_id (fun r =>
          { r with status := "pending", retry_count := row.retry_count + 1,
                   updated_at := db.now }) := by
      unfold increment_retry
      rw [hfind]
      simp [not_le.mpr hlt]
    constructor
    · unfold increment_retry
      rw [hfind]
      simp [not_le.mpr hlt]
    · rw [hq, queueFind_queueUpdate db.queue item_id
        (fun r => { r with status := "pending", retry_count := row.retry_count + 1,
                           updated_at := db.now })
        (fun r => rfl), hfind]
      rfl

/-- Witness for C5, exercising the three-successive-calls scenario with
`max_retries = 3`: the first two calls return "retry eligible" leaving the
item pending, the third quarantines it with `retry_count = 3`. -/
theorem C5_witness :
    (increment_retry (qdbOf (qrow "pending" "stage1" 0 3)) 1).1 = .ok true ∧
    queueFind (increment_retry (qdbOf (qrow "pending" "stage1" 0 3)) 1).2.queue 1 =
      some { qrow "pending" "stage1" 0 3 with
               status := "pending", retry_count := 1, updated_at := 5 } ∧
    (increment_retry
      (increment_retry (qdbOf (qrow "pending" "stage1" 0 3)) 1).2 1).1 = .ok true ∧
    (increment_retry (increment_retry
      (increment_retry (qdbOf (qrow "pending" "stage1" 0 3)) 1).2 1).2 1).1 = .ok false ∧
    queueFind (increment_retry (increment_retry
      (increment_retry (qdbOf (qrow "pending" "stage1" 0 3)) 1).2 1).2 1).2.queue 1 =
      some { qrow "pending" "stage1" 0 3 with
               status := "quarantined", retry_count := 3, updated_at := 5 } := by
  refine ⟨?_, by decide, rfl, rfl, by decide⟩
  exact ((C5_increment_retry (qdbOf (qrow "pending" "stage1" 0 3)) 1
    (qrow "pending" "stage1" 0 3) rfl).2 (by decide)).1

/-- Claim C6, counterexample: the store does not make Quarantined terminal and
does not keep `retry_count ≤ max_retries`.  On a concrete item with
`retry_count = max_retries = 3` and status `quarantined`:
`increment_retry` bumps `retry_count` to `4 > 3` (violating the bound),
`update_status(Pending)` moves the quarantined item back to `pending`, and
`complete_stage` advances its stage — three further transitions the claim
says are never performed. -/
theorem C6_counterexample :
    queueFind (increment_retry (qdbOf (qrow "quarantined" "stage1" 3 3)) 1).2.queue 1 =
      some { qrow "quarantined" "stage1" 3 3 with retry_count := 4, updated_at := 5 } ∧
    ¬ ((4 : Int) ≤ 3) ∧
    queueFind
      (update_status (qdbOf (qrow "quarantined" "stage1" 3 3)) 1 .pending none).2.queue 1 =
      some { qrow "quarantined" "stage1" 3 3 with status := "pending", updated_at := 5 } ∧
    queueFind (complete_stage (qdbOf (qrow "quarantined" "stage1" 3 3)) 1).2.queue 1 =
      some { qrow "quarantined" "stage1" 3 3 with
               stage := "stage2", status := "pending", updated_at := 5 } := by
  exact ⟨by decide, by decide, by decide, by decide⟩

/-- Claim C6 (corrected): the bound `retry_count ≤ max_retries` is preserved by
`increment_retry` only for items strictly below the bound (where it quarantines
exactly on reaching it); nothing enforces terminality of Quarantined: the
repository operations do not inspect the current status, so `update_status`
moves a quarantined item to any requested status, `complete_stage` advances a
quarantined item's stage, and `increment_retry` on an item already at the
bound pushes `retry_count` past `max_retries`. -/
theorem C6_retry_bound (db : QueueDb) (item_id : Int) (row : QueueRow)
    (hfind : queueFind db.queue item_id = some row) :
    (row.retry_count < row.max_retries →
      ∀ row', queueFind (increment_retry db item_id).2.queue item_id = some row' →
        row'.retry_count ≤ row'.max_retries) ∧
    (row.status = "quarantined" →
      queueFind (update_status db item_id .pending none).2.queue item_id =
        some { row with status := "pending", error_message := none,
                        updated_at := db.now }) ∧
    (row.status = "quarantined" → row.retry_count + 1 ≥ row.max_retries →
      queueFind (increment_retry db item_id).2.queue item_id =
        some { row with status := "quarantined",
                        retry_count := row.retry_count + 1,
                        updated_at := db.now }) := by
  refine ⟨?_, ?_, ?_⟩
  · intro hlt row' hfind'
    by_cases hge : row.retry_count + 1 ≥ row.max_retries
    · have hq : (increment_retry db item_id).2.queue =
          queueUpdate db.queue item_id (fun r =>
            { r with status := "quarantined", retry_count := row.retry_count + 1,
                     updated_at := db.now }) := by
        unfold increment_retry
        rw [hfind]
        simp [hge]
      rw [hq, queueFind_queueUpdate db.queue item_id
        (fun r => { r with status := "quarantined",
                           retry_count := row.retry_count + 1,
                           updated_at := db.now }) (fun r => rfl), hfind] at hfind'
      cases hfind'
      show row.retry_count + 1 ≤ row.max_retries
      omega
    · have hq : (increment_retry db item_id).2.queue =
          queueUpdate db.queue item_id (fun r =>
            { r with status := "pending", retry_count := row.retry_count + 1,
                     updated_at := db.now }) := by
        unfold increment_retry
        rw [hfind]
        simp [hge]
      rw [hq, queueFind_queueUpdate db.queue item_id
        (fun r => { r with status := "pending",
                           retry_count := row.retry_count + 1,
                           updated_at := db.now }) (fun r => rfl), hfind] at hfind'
      cases hfind'
      show row.retry_count + 1 ≤ row.max_retries
      omega
  · intro _
    have hq : (update_status db item_id .pending none).2.queue =
        queueUpdate db.queue item_id (fun r =>
          { r with status := "pending", error_message := none,
                   updated_at := db.now }) := by
      unfold update_status
      simp [statusToString]
    rw [hq, queueFind_queueUpdate db.queue item_id
      (fun r => { r with status := "pending", error_message := none,
                         updated_at := db.now }) (fun r => rfl), hfind]
    rfl
  · intro _ hge
    have hq : (increment_retry db item_id).2.queue =
        queueUpdate db.queue item_id (fun r =>
          { r with status := "quarantined", retry_count := row.retry_count + 1,
                   updated_at := db.now }) := by
      unfold increment_retry
      rw [hfind]
      simp [hge]
    rw [hq, queueFind_queueUpdate db.queue item_id
      (fun r => { r with status := "quarantined",
                         retry_count := row.retry_count + 1,
                         updated_at := db.now }) (fun r => rfl), hfind]
    rfl

/-- Witness for C6's positive part: an item with `retry_count = 1 < 3` keeps
`retry_count ≤ max_retries` after `increment_retry`, and the non-guarding
branches fire on a concrete quarantined item. -/
theorem C6_witness :
    (∀ row', queueFind
        (increment_retry (qdbOf (qrow "pending" "stage1" 1 3)) 1).2.queue 1 =
          some row' → row'.retry_count ≤ row'.max_retries) ∧
    queueFind
      (update_status (qdbOf (qrow "quarantined" "stage2" 3 3)) 1 .pending none).2.queue 1 =
      some { qrow "quarantined" "stage2" 3 3 with status := "pending", updated_at := 5 } := by
  constructor
  · exact (C6_retry_bound (qdbOf (qrow "pending" "stage1" 1 3)) 1
      (qrow "pending" "stage1" 1 3) rfl).1 (by decide)
  · exact (C6_retry_bound (qdbOf (qrow "quarantined" "stage2" 3 3)) 1
      (qrow "quarantined" "stage2" 3 3) rfl).2.1 rfl

/-! ## Claim C10 (hit-rate totality) -/

/-- Claim C10 (confirmed): computing the hit rate is total.  For non-negative
counters, `calculate_hit_rate` sets `hit_rate` to `0` when
`total_hits + total_misses = 0` and to `total_hits / (total_hits + total_misses)`
otherwise; consequently `get_cache_stats` on a state with an empty
`cache_metrics` table reports `hit_rate = 0`. -/
theorem C10_hit_rate_total (s : CacheStats)
    (hh : 0 ≤ s.total_hits) (hm : 0 ≤ s.total_misses) :
    (s.total_hits + s.total_misses = 0 → s.calculate_hit_rate.hit_rate = 0) ∧
    (s.total_hits + s.total_misses ≠ 0 →
      s.calculate_hit_rate.hit_rate =
        (s.total_hits : ℚ) / ((s.total_hits + s.total_misses : Int) : ℚ)) ∧
    (∀ db : CacheDb, db.metrics = [] → (get_cache_stats db).hit_rate = 0) := by
  refine ⟨?_, ?_, ?_⟩
  · intro h0
    unfold CacheStats.calculate_hit_rate
    simp [h0]
  · intro hne
    have hpos : 0 < s.total_hits + s.total_misses := by omega
    unfold CacheStats.calculate_hit_rate
    simp [hpos]
  · intro db hdb
    unfold get_cache_stats CacheStats.estimate_cost_saved CacheStats.calculate_hit_rate
    rw [hdb]
    simp

/-- Witness for C10: 4 hits and 1 miss give a hit rate of 4/5 = 0.8, and an
empty metrics store reports a hit rate of 0 (no division by zero). -/
theorem C10_witness :
    ((0 : Int) ≤ 4 ∧ (0 : Int) ≤ 1) ∧
    ({ total_entries := 0, stage1_entries := 0, stage2_entries := 0,
       total_hits := 4, total_misses := 1, hit_rate := 0,
       total_tokens_saved := 0, estimated_cost_saved := 0 } :
        CacheStats).calculate_hit_rate.hit_rate = 4 / 5 ∧
    (get_cache_stats cacheDbEmpty).hit_rate = 0 := by
  refine ⟨⟨by norm_num, by norm_num⟩, ?_, ?_⟩
  · have h := (C10_hit_rate_total
      { total_entries := 0, stage1_entries := 0, stage2_entries := 0,
        total_hits := 4, total_misses := 1, hit_rate := 0,
        total_tokens_saved := 0, estimated_cost_saved := 0 }
      (by norm_num) (by norm_num)).2.1 (by norm_num)
    rw [h]
    norm_num
  · exact (C10_hit_rate_total
      { total_entries := 0, stage1_entries := 0, stage2_entries := 0,
        total_hits := 0, total_misses := 0, hit_rate := 0,
        total_tokens_saved := 0, estimated_cost_saved := 0 }
      (by norm_num) (by norm_num)).2.2 cacheDbEmpty rfl

/-! ## Cache repository lemmas -/

theorem stage1Find_key {rows : List Stage1Row} {k : String} {r : Stage1Row}
    (h : stage1Find rows k = some r) : r.cache_key = k := by
  have := List.find?_some h
  simpa using this

theorem stage2Find_key {rows : List Stage2Row} {k : String} {r : Stage2Row}
    (h : stage2Find rows k = some r) : r.cache_key = k := by
  have := List.find?_some h
  simpa using this

theorem stage1Find_append_of_none {rows : List Stage1Row} {k : String}
    (h : stage1Find rows k = none) (r : Stage1Row) :
    stage1Find (rows ++ [r]) k =
      if (r.cache_key == k) = true then some r else none := by
  unfold stage1Find at *
  rw [List.find?_append, h]
  cases hb : r.cache_key == k <;> simp [List.find?, hb]

theorem content_bumpAccessStage1 (rows : List Stage1Row) (i : Nat) :
    (bumpAccessStage1 rows i).map Stage1Row.content =
      rows.map Stage1Row.content := by
  unfold bumpAccessStage1
  rw [List.map_map]
  apply List.map_congr_left
  intro r _
  simp only [Function.comp_apply]
  split <;> rfl

theorem content_bumpAccessStage2 (rows : List Stage2Row) (i : Nat) :
    (bumpAccessStage2 rows i).map Stage2Row.content =
      rows.map Stage2Row.content := by
  unfold bumpAccessStage2
  rw [List.map_map]
  apply List.map_congr_left
  intro r _
  simp only [Function.comp_apply]
  split <;> rfl

theorem get_stage1_cache_miss (db : CacheDb) (k : String)
    (h : stage1Find db.stage1_rows k = none) :
    get_stage1_cache db k =
      (.ok none,
       { db with metrics := bumpMetrics db.metrics .stage1 false 0 db.now }) := by
  unfold get_stage1_cache
  rw [h]

theorem get_stage1_cache_hit (db : CacheDb) (k : String) (row : Stage1Row)
    (res : Stage1Result) (hf : stage1Find db.stage1_rows k = some row)
    (hr : stage1RowResult row = some res) :
    get_stage1_cache db k =
      (.ok (some res),
       { db with stage1_rows := bumpAccessStage1 db.stage1_rows row.id,
                 metrics := bumpMetrics db.metrics .stage1 true row.token_count db.now }) := by
  unfold stage1RowResult at hr
  cases hp : parseResponseJson row.response_json with
  | error e => rw [hp] at hr; cases hr
  | ok doc =>
    rw [hp] at hr
    dsimp only at hr
    cases hg : doc.getField "semantic_analysis" with
    | none => rw [hg] at hr; cases hr
    | some v =>
      rw [hg] at hr
      dsimp only at hr
      cases hd : decodeSemanticAnalysis v with
      | error e => rw [hd] at hr; cases hr
      | ok sa =>
        rw [hd] at hr
        dsimp only at hr
        cases hr
        simp [get_stage1_cache, hf, hp, hg, hd]

theorem get_stage1_cache_err (db : CacheDb) (k : String) (row : Stage1Row)
    (hf : stage1Find db.stage1_rows k = some row)
    (hr : stage1RowResult row = none) :
    ∃ e, get_stage1_cache db k =
      (.error e, { db with stage1_rows := bumpAccessStage1 db.stage1_rows row.id }) := by
  unfold stage1RowResult at hr
  cases hp : parseResponseJson row.response_json with
  | error e => exact ⟨e, by simp [get_stage1_cache, hf, hp]⟩
  | ok doc =>
    rw [hp] at hr
    dsimp only at hr
    cases hg : doc.getField "semantic_analysis" with
    | none =>
      exact ⟨.cache "Missing semantic_analysis in cache",
        by simp [get_stage1_cache, hf, hp, hg]⟩
    | some v =>
      rw [hg] at hr
      dsimp only at hr
      cases hd : decodeSemanticAnalysis v with
      | error e => exact ⟨e, by simp [get_stage1_cache, hf, hp, hg, hd]⟩
      | ok sa => rw [hd] at hr; dsimp only at hr; cases hr

theorem get_stage2_cache_miss (db : CacheDb) (k : String)
    (h : stage2Find db.stage2_rows k = none) :
    get_stage2_cache db k =
      (.ok none,
       { db with metrics := bumpMetrics db.metrics .stage2 false 0 db.now }) := by
  unfold get_stage2_cache
  rw [h]

theorem get_stage2_cache_hit (db : CacheDb) (k : String) (row : Stage2Row)
    (res : Stage2Result) (hf : stage2Find db.stage2_rows k = some row)
    (hr : stage2RowResult row = some res) :
    get_stage2_cache db k =
      (.ok (some res),
       { db with stage2_rows := bumpAccessStage2 db.stage2_rows row.id,
                 metrics := bumpMetrics db.metrics .stage2 true row.token_count db.now }) := by
  unfold stage2RowResult at hr
  cases hp : parseResponseJson row.response_json with
  | error e => rw [hp] at hr; cases hr
  | ok doc =>
    rw [hp] at hr
    dsimp only at hr
    cases hg : doc.getField "flashcard_content" with
    | none => rw [hg] at hr; cases hr
    | some v =>
      rw [hg] at hr
      dsimp only at hr
      cases hd : decodeFlashcardContent v with
      | error e => rw [hd] at hr; cases hr
      | ok fc =>
        rw [hd] at hr
        dsimp only at hr
        cases hr
        simp [get_stage2_cache, hf, hp, hg, hd]

theorem get_stage2_cache_err (db : CacheDb) (k : String) (row : Stage2Row)
    (hf : stage2Find db.stage2_rows k = some row)
    (hr : stage2RowResult row = none) :
    ∃ e, get_stage2_cache db k =
      (.error e, { db with stage2_rows := bumpAccessStage2 db.stage2_rows row.id }) := by
  unfold stage2RowResult at hr
  cases hp : parseResponseJson row.response_json with
  | error e => exact ⟨e, by simp [get_stage2_cache, hf, hp]⟩
  | ok doc =>
    rw [hp] at hr
    dsimp only at hr
    cases hg : doc.getField "flashcard_content" with
    | none =>
      exact ⟨.cache "Missing flashcard_content in cache",
        by simp [get_stage2_cache, hf, hp, hg]⟩
    | some v =>
      rw [hg] at hr
      dsimp only at hr
      cases hd : decodeFlashcardContent v with
      | error e => exact ⟨e, by simp [get_stage2_cache, hf, hp, hg, hd]⟩
      | ok fc => rw [hd] at hr; dsimp only at hr; cases hr

theorem get_stage1_cache_ok_isSome (db : CacheDb) (k : String)
    (r : Option Stage1Result) (db₂ : CacheDb)
    (h : get_stage1_cache db k = (.ok r, db₂)) :
    r.isSome = (stage1Find db.stage1_rows k).isSome := by
  cases hf : stage1Find db.stage1_rows k with
  | none =>
    rw [get_stage1_cache_miss db k hf] at h
    cases h
    rfl
  | some row =>
    cases hr : stage1RowResult row with
    | none =>
      obtain ⟨e, he⟩ := get_stage1_cache_err db k row hf hr
      rw [he] at h
      cases h
    | some res =>
      rw [get_stage1_cache_hit db k row res hf hr] at h
      cases h
      rfl

theorem get_stage2_cache_ok_isSome (db : CacheDb) (k : String)
    (r : Option Stage2Result) (db₂ : CacheDb)
    (h : get_stage2_cache db k = (.ok r, db₂)) :
    r.isSome = (stage2Find db.stage2_rows k).isSome := by
  cases hf : stage2Find db.stage2_rows k with
  | none =>
    rw [get_stage2_cache_miss db k hf] at h
    cases h
    rfl
  | some row =>
    cases hr : stage2RowResult row with
    | none =>
      obtain ⟨e, he⟩ := get_stage2_cache_err db k row hf hr
      rw [he] at h
      cases h
    | some res =>
      rw [get_stage2_cache_hit db k row res hf hr] at h
      cases h
      rfl

theorem get_stage1_cache_state (db : CacheDb) (k : String) :
    cacheContentEq (get_stage1_cache db k).2 db := by
  cases hf : stage1Find db.stage1_rows k with
  | none =>
    rw [get_stage1_cache_miss db k hf]
    exact ⟨rfl, rfl, rfl, rfl⟩
  | some row =>
    cases hr : stage1RowResult row with
    | none =>
      obtain ⟨e, he⟩ := get_stage1_cache_err db k row hf hr
      rw [he]
      exact ⟨content_bumpAccessStage1 db.stage1_rows row.id, rfl, rfl, rfl⟩
    | some res =>
      rw [get_stage1_cache_hit db k row res hf hr]
      exact ⟨content_bumpAccessStage1 db.stage1_rows row.id, rfl, rfl, rfl⟩

theorem get_stage2_cache_state (db : CacheDb) (k : String) :
    cacheContentEq (get_stage2_cache db k).2 db := by
  cases hf : stage2Find db.stage2_rows k with
  | none =>
    rw [get_stage2_cache_miss db k hf]
    exact ⟨rfl, rfl, rfl, rfl⟩
  | some row =>
    cases hr : stage2RowResult row with
    | none =>
      obtain ⟨e, he⟩ := get_stage2_cache_err db k row hf hr
      rw [he]
      exact ⟨rfl, content_bumpAccessStage2 db.stage2_rows row.id, rfl, rfl⟩
    | some res =>
      rw [get_stage2_cache_hit db k row res hf hr]
      exact ⟨rfl, content_bumpAccessStage2 db.stage2_rows row.id, rfl, rfl⟩

/-- A row written by `save_stage1_cache` parses back to the saved result, with
`created_at` taken from the row (the insert-time default), not from the
original result. -/
theorem stage1RowResult_saved (result : Stage1Result) (rh : String)
    (tc : Int) (mu : String) (i : Nat) (now : Timestamp) :
    stage1RowResult (savedStage1Row result rh tc mu i now) =
      some { vocabulary_id := result.vocabulary_id,
             request_id := result.request_id, cache_key := result.cache_key,
             semantic_analysis := result.semantic_analysis,
             created_at := now } := by
  rfl

/-! ## Claims C1, C2, C9 (get-or-compute contract) -/

/-- Claim C1 (corrected): `get_or_compute_stage1` on the derived key of an
item.  (a) If a well-formed entry is stored under the key, the entry
reconstructed from the stored row is returned and the producer is never
invoked.  (b) If no entry is stored, the producer is invoked (exactly once —
it is a `FnOnce` consumed in the single miss branch) and, on success, the
result is persisted under *the result's own `cache_key` field* before being
returned; when that field carries the derived key — as all pipeline producers
arrange — a subsequent `get_or_compute_stage1` on the same item with any
second producer returns the persisted entry (whose `created_at` is the
insert time) without invoking the second producer.  Without the
`result.cache_key = derived key` premise the round trip fails: see the
counterexample. -/
theorem C1_get_or_compute_stage1 (digest : String → String) (db : CacheDb)
    (item : VocabularyItem) :
    (∀ row res producer,
      stage1Find db.stage1_rows (Stage1Result.generate_cache_key digest item) = some row →
      stage1RowResult row = some res →
      (get_or_compute_stage1 digest db item producer).1 = .ok res ∧
      (get_or_compute_stage1 digest db item producer).2.2 = false) ∧
    (∀ result request_hash token_count model_used,
      stage1Find db.stage1_rows (Stage1Result.generate_cache_key digest item) = none →
      result.cache_key = Stage1Result.generate_cache_key digest item →
      (get_or_compute_stage1 digest db item
        (.ok (result, request_hash, token_count, model_used))).1 = .ok result ∧
      (get_or_compute_stage1 digest db item
        (.ok (result, request_hash, token_count, model_used))).2.2 = true ∧
      (∀ producer2,
        (get_or_compute_stage1 digest
          (get_or_compute_stage1 digest db item
            (.ok (result, request_hash, token_count, model_used))).2.1
          item producer2).1 = .ok { result with created_at := db.now } ∧
        (get_or_compute_stage1 digest
          (get_or_compute_stage1 digest db item
            (.ok (result, request_hash, token_count, model_used))).2.1
          item producer2).2.2 = false)) := by
  constructor
  · intro row res producer hf hr
    have h1 : get_or_compute_stage1 digest db item producer =
        (.ok res,
         { db with stage1_rows := bumpAccessStage1 db.stage1_rows row.id,
                   metrics := bumpMetrics db.metrics .stage1 true row.token_count db.now },
         false) := by
      unfold get_or_compute_stage1
      dsimp only
      rw [get_stage1_cache_hit db _ row res hf hr]
    rw [h1]
    exact ⟨rfl, rfl⟩
  · intro result request_hash token_count model_used hmiss hkey
    have h1 : get_or_compute_stage1 digest db item
        (.ok (result, request_hash, token_count, model_used)) =
        (.ok result,
         { db with
             metrics := bumpMetrics db.metrics .stage1 false 0 db.now,
             stage1_rows := db.stage1_rows ++
               [savedStage1Row result request_hash token_count model_used
                  db.next_id db.now],
             next_id := db.next_id + 1 },
         true) := by
      unfold get_or_compute_stage1
      dsimp only
      rw [get_stage1_cache_miss db _ hmiss]
      rfl
    refine ⟨by rw [h1], by rw [h1], ?_⟩
    intro producer2
    have hbeq : ((savedStage1Row result request_hash token_count model_used
        db.next_id db.now).cache_key ==
          Stage1Result.generate_cache_key digest item) = true := by
      show (result.cache_key == Stage1Result.generate_cache_key digest item) = true
      rw [hkey]
      exact beq_self_eq_true _
    have hfind2 : stage1Find
        (get_or_compute_stage1 digest db item
          (.ok (result, request_hash, token_count, model_used))).2.1.stage1_rows
        (Stage1Result.generate_cache_key digest item) =
        some (savedStage1Row result request_hash token_count model_used
          db.next_id db.now) := by
      rw [h1]
      dsimp only
      rw [stage1Find_append_of_none hmiss, if_pos hbeq]
    have hres2 := stage1RowResult_saved result request_hash token_count
      model_used db.next_id db.now
    revert hfind2
    generalize (get_or_compute_stage1 digest db item
      (.ok (result, request_hash, token_count, model_used))).2.1 = dbA
    intro hfind2
    constructor
    · unfold get_or_compute_stage1
      dsimp only
      rw [get_stage1_cache_hit dbA _ _ _ hfind2 hres2]
    · unfold get_or_compute_stage1
      dsimp only
      rw [get_stage1_cache_hit dbA _ _ _ hfind2 hres2]

/-- Claim C1, counterexample: the save is keyed on the *producer result's*
`cache_key` field, not on the derived key.  With an empty cache and a producer
returning a result whose `cache_key` is `"bogus"`, the first call succeeds and
"persists", yet a subsequent `get_or_compute_stage1` on the same item still
misses: it invokes the second producer (returning its error), contradicting
"a subsequent get_or_compute on the same key with any second producer returns
the persisted result without invoking that second producer". -/
theorem C1_counterexample :
    (get_or_compute_stage1 id cacheDbEmpty itemSpring
      (.ok (stage1ResBogusKey, "rh", 100, "model"))).1 = .ok stage1ResBogusKey ∧
    (get_or_compute_stage1 id
      (get_or_compute_stage1 id cacheDbEmpty itemSpring
        (.ok (stage1ResBogusKey, "rh", 100, "model"))).2.1
      itemSpring (.error (.api "p2" none))).2.2 = true ∧
    (get_or_compute_stage1 id
      (get_or_compute_stage1 id cacheDbEmpty itemSpring
        (.ok (stage1ResBogusKey, "rh", 100, "model"))).2.1
      itemSpring (.error (.api "p2" none))).1 = .error (.api "p2" none) := by
  exact ⟨rfl, rfl, rfl⟩

/-- Witness for C1: with an empty cache and a producer whose result carries
the derived key, the first call computes and the second call returns the
persisted entry (created at insert time `7`) without invoking its producer. -/
theorem C1_witness :
    (get_or_compute_stage1 id cacheDbEmpty itemSpring
      (.ok (stage1ResSpring, "rh", 100, "model"))).1 = .ok stage1ResSpring ∧
    (get_or_compute_stage1 id
      (get_or_compute_stage1 id cacheDbEmpty itemSpring
        (.ok (stage1ResSpring, "rh", 100, "model"))).2.1
      itemSpring (.error (.api "p2" none))).1 =
      .ok { stage1ResSpring with created_at := 7 } ∧
    (get_or_compute_stage1 id
      (get_or_compute_stage1 id cacheDbEmpty itemSpring
        (.ok (stage1ResSpring, "rh", 100, "model"))).2.1
      itemSpring (.error (.api "p2" none))).2.2 = false := by
  have h := (C1_get_or_compute_stage1 id cacheDbEmpty itemSpring).2
    stage1ResSpring "rh" 100 "model" rfl rfl
  exact ⟨h.1, (h.2.2 (.error (.api "p2" none))).1, (h.2.2 (.error (.api "p2" none))).2⟩

/-- Claim C2 (confirmed): on a miss, a failing producer's error is propagated
and nothing is written to the cache — the stage-1 and stage-2 tables are
exactly as before (only hit/miss metrics moved), so a later
`get_or_compute_stage1` on the same item still misses and invokes its
producer: failures are never cached. -/
theorem C2_failure_not_cached (digest : String → String) (db : CacheDb)
    (item : VocabularyItem) (err : PipelineError)
    (hmiss : stage1Find db.stage1_rows
      (Stage1Result.generate_cache_key digest item) = none) :
    (get_or_compute_stage1 digest db item (.error err)).1 = .error err ∧
    (get_or_compute_stage1 digest db item (.error err)).2.2 = true ∧
    (get_or_compute_stage1 digest db item (.error err)).2.1.stage1_rows =
      db.stage1_rows ∧
    (get_or_compute_stage1 digest db item (.error err)).2.1.stage2_rows =
      db.stage2_rows ∧
    ∀ producer2,
      (get_or_compute_stage1 digest
        (get_or_compute_stage1 digest db item (.error err)).2.1
        item producer2).2.2 = true := by
  have h1 : get_or_compute_stage1 digest db item (.error err) =
      (.error err,
       { db with metrics := bumpMetrics db.metrics .stage1 false 0 db.now },
       true) := by
    unfold get_or_compute_stage1
    dsimp only
    rw [get_stage1_cache_miss db _ hmiss]
  refine ⟨by rw [h1], by rw [h1], by rw [h1], by rw [h1], ?_⟩
  intro producer2
  rw [h1]
  have hmiss2 : stage1Find
      ({ db with metrics := bumpMetrics db.metrics .stage1 false 0 db.now } :
        CacheDb).stage1_rows
      (Stage1Result.generate_cache_key digest item) = none := hmiss
  unfold get_or_compute_stage1
  dsimp only
  rw [get_stage1_cache_miss _ _ hmiss2]
  cases producer2 with
  | error e => rfl
  | ok t =>
    obtain ⟨r, rh, tc, mu⟩ := t
    rfl

/-- Witness for C2: with an empty cache a failing producer's error comes back,
the tables stay empty, and a retry still invokes its producer. -/
theorem C2_witness :
    (get_or_compute_stage1 id cacheDbEmpty itemSpring
      (.error (.timeout 30))).1 = .error (.timeout 30) ∧
    (get_or_compute_stage1 id cacheDbEmpty itemSpring
      (.error (.timeout 30))).2.1.stage1_rows = [] ∧
    (get_or_compute_stage1 id
      (get_or_compute_stage1 id cacheDbEmpty itemSpring
        (.error (.timeout 30))).2.1
      itemSpring (.ok (stage1ResSpring, "rh", 1, "m"))).2.2 = true := by
  have h := C2_failure_not_cached id cacheDbEmpty itemSpring (.timeout 30) rfl
  exact ⟨h.1, h.2.2.1, h.2.2.2.2 (.ok (stage1ResSpring, "rh", 1, "m"))⟩

/-- Claim C9, counterexample: a malformed `response_json` on a stored row is
NOT treated as a cache miss.  On a concrete state whose only row (under the
item's derived key) is unparsable, `get_stage1_cache` returns the
serialization error rather than `Ok(None)`, and the surrounding
`get_or_compute_stage1` aborts with that error without ever invoking the
producer — it does not proceed to compute. -/
theorem C9_counterexample :
    (get_stage1_cache dbMalformed
      (Stage1Result.generate_cache_key id itemSpring)).1 =
      .error (.serialization "invalid JSON: not json") ∧
    (get_or_compute_stage1 id dbMalformed itemSpring
      (.ok (stage1ResSpring, "rh", 1, "m"))).1 =
      .error (.serialization "invalid JSON: not json") ∧
    (get_or_compute_stage1 id dbMalformed itemSpring
      (.ok (stage1ResSpring, "rh", 1, "m"))).2.2 = false := by
  exact ⟨rfl, rfl, rfl⟩

/-- Claim C9 (corrected): a serialization or cache-shape error while reading a
stored entry (malformed `response_json`, or a missing / undecodable
`semantic_analysis` / `flashcard_content` field) makes the lookup itself
return an error (`?`-propagation), and the surrounding `get_or_compute`
returns that error without invoking the producer; the error is observable to
the caller precisely because it is propagated, not converted into a miss. -/
theorem C9_cache_read_error_propagates (digest : String → String) (db : CacheDb)
    (item : VocabularyItem)
    (producer : Except PipelineError (Stage1Result × String × Int × String)) :
    (∀ row,
      stage1Find db.stage1_rows (Stage1Result.generate_cache_key digest item) = some row →
      stage1RowResult row = none →
      isErr (get_stage1_cache db (Stage1Result.generate_cache_key digest item)).1 = true ∧
      isErr (get_or_compute_stage1 digest db item producer).1 = true ∧
      (get_or_compute_stage1 digest db item producer).2.2 = false) ∧
    (∀ (s1res : Stage1Result)
       (producer2 : Except PipelineError (Stage2Result × String × Int × String)) row2,
      stage2Find db.stage2_rows
        (Stage2Result.generate_cache_key digest item s1res.cache_key) = some row2 →
      stage2RowResult row2 = none →
      isErr (get_or_compute_stage2 digest db item s1res producer2).1 = true ∧
      (get_or_compute_stage2 digest db item s1res producer2).2.2 = false) := by
  constructor
  · intro row hf hr
    obtain ⟨e, he⟩ := get_stage1_cache_err db _ row hf hr
    refine ⟨by rw [he]; rfl, ?_, ?_⟩
    · unfold get_or_compute_stage1
      dsimp only
      rw [he]
      rfl
    · unfold get_or_compute_stage1
      dsimp only
      rw [he]
  · intro s1res producer2 row2 hf hr
    obtain ⟨e, he⟩ := get_stage2_cache_err db _ row2 hf hr
    constructor
    · unfold get_or_compute_stage2
      dsimp only
      rw [he]
      rfl
    · unfold get_or_compute_stage2
      dsimp only
      rw [he]

/-- Witness for C9: the malformed concrete row makes both the raw lookup and
the surrounding get-or-compute error out with the producer uninvoked. -/
theorem C9_witness :
    isErr (get_stage1_cache dbMalformed
      (Stage1Result.generate_cache_key id itemSpring)).1 = true ∧
    isErr (get_or_compute_stage1 id dbMalformed itemSpring
      (.ok (stage1ResSpring, "rh", 1, "m"))).1 = true ∧
    (get_or_compute_stage1 id dbMalformed itemSpring
      (.ok (stage1ResSpring, "rh", 1, "m"))).2.2 = false := by
  exact (C9_cache_read_error_propagates id dbMalformed itemSpring
    (.ok (stage1ResSpring, "rh", 1, "m"))).1 malformedRow rfl rfl

/-! ## Content congruence (for the warm-cache frame reasoning) -/

theorem cacheContentEq_refl (db : CacheDb) : cacheContentEq db db :=
  ⟨rfl, rfl, rfl, rfl⟩

theorem cacheContentEq_trans {db₁ db₂ db₃ : CacheDb}
    (h₁ : cacheContentEq db₁ db₂) (h₂ : cacheContentEq db₂ db₃) :
    cacheContentEq db₁ db₃ :=
  ⟨h₁.1.trans h₂.1, h₁.2.1.trans h₂.2.1, h₁.2.2.1.trans h₂.2.2.1,
   h₁.2.2.2.trans h₂.2.2.2⟩

theorem isSome_of_map_eq {α β : Type} (f : α → β) {a b : Option α}
    (h : a.map f = b.map f) : a.isSome = b.isSome := by
  cases a <;> cases b <;> simp_all

theorem stage1RowResult_congr {r₁ r₂ : Stage1Row}
    (h : r₁.content = r₂.content) : stage1RowResult r₁ = stage1RowResult r₂ := by
  have hresp : r₁.response_json = r₂.response_json :=
    congrArg Stage1RowContent.response_json h
  have hvid : r₁.vocabulary_id = r₂.vocabulary_id :=
    congrArg Stage1RowContent.vocabulary_id h
  have hkey : r₁.cache_key = r₂.cache_key :=
    congrArg Stage1RowContent.cache_key h
  have hcre : r₁.created_at = r₂.created_at :=
    congrArg Stage1RowContent.created_at h
  unfold stage1RowResult
  rw [hresp, hvid, hkey, hcre]

theorem stage1Find_contentCongr {rows₁ rows₂ : List Stage1Row}
    (h : rows₁.map Stage1Row.content = rows₂.map Stage1Row.content)
    (k : String) :
    (stage1Find rows₁ k).map Stage1Row.content =
      (stage1Find rows₂ k).map Stage1Row.content := by
  induction rows₁ generalizing rows₂ with
  | nil =>
    have : rows₂ = [] := by
      cases rows₂ with
      | nil => rfl
      | cons _ _ => simp at h
    subst this
    rfl
  | cons r₁ t₁ ih =>
    cases rows₂ with
    | nil => simp at h
    | cons r₂ t₂ =>
      simp only [List.map_cons, List.cons.injEq] at h
      obtain ⟨hh, ht⟩ := h
      have hkey : r₁.cache_key = r₂.cache_key :=
        congrArg Stage1RowContent.cache_key hh
      unfold stage1Find at *
      by_cases hb : (r₁.cache_key == k) = true
      · have hb₂ : (r₂.cache_key == k) = true := by rw [← hkey]; exact hb
        rw [@List.find?_cons_of_pos _ (fun x => x.cache_key == k) r₁ _ hb,
          @List.find?_cons_of_pos _ (fun x => x.cache_key == k) r₂ _ hb₂]
        simpa using hh
      · have hb₂ : ¬(r₂.cache_key == k) = true := by rw [← hkey]; exact hb
        rw [@List.find?_cons_of_neg _ (fun x => x.cache_key == k) r₁ _ hb,
          @List.find?_cons_of_neg _ (fun x => x.cache_key == k) r₂ _ hb₂]
        exact ih ht

theorem stage2Find_contentCongr {rows₁ rows₂ : List Stage2Row}
    (h : rows₁.map Stage2Row.content = rows₂.map Stage2Row.content)
    (k : String) :
    (stage2Find rows₁ k).map Stage2Row.content =
      (stage2Find rows₂ k).map Stage2Row.content := by
  induction rows₁ generalizing rows₂ with
  | nil =>
    have : rows₂ = [] := by
      cases rows₂ with
      | nil => rfl
      | cons _ _ => simp at h
    subst this
    rfl
  | cons r₁ t₁ ih =>
    cases rows₂ with
    | nil => simp at h
    | cons r₂ t₂ =>
      simp only [List.map_cons, List.cons.injEq] at h
      obtain ⟨hh, ht⟩ := h
      have hkey : r₁.cache_key = r₂.cache_key :=
        congrArg Stage2RowContent.cache_key hh
      unfold stage2Find at *
      by_cases hb : (r₁.cache_key == k) = true
      · have hb₂ : (r₂.cache_key == k) = true := by rw [← hkey]; exact hb
        rw [@List.find?_cons_of_pos _ (fun x => x.cache_key == k) r₁ _ hb,
          @List.find?_cons_of_pos _ (fun x => x.cache_key == k) r₂ _ hb₂]
        simpa using hh
      · have hb₂ : ¬(r₂.cache_key == k) = true := by rw [← hkey]; exact hb
        rw [@List.find?_cons_of_neg _ (fun x => x.cache_key == k) r₁ _ hb,
          @List.find?_cons_of_neg _ (fun x => x.cache_key == k) r₂ _ hb₂]
        exact ih ht

theorem stage1CachedB_congr (digest : String → String) {db₁ db₂ : CacheDb}
    (h : cacheContentEq db₁ db₂) (item : VocabularyItem) :
    stage1CachedB digest db₁ item = stage1CachedB digest db₂ item := by
  unfold stage1CachedB
  exact isSome_of_map_eq Stage1Row.content
    (stage1Find_contentCongr h.1 (Stage1Result.generate_cache_key digest item))

theorem stage2CachedB_congr (digest : String → String) {db₁ db₂ : CacheDb}
    (h : cacheContentEq db₁ db₂) (item : VocabularyItem) :
    stage2CachedB digest db₁ item = stage2CachedB digest db₂ item := by
  unfold stage2CachedB
  have h₁ := stage1Find_contentCongr h.1 (Stage1Result.generate_cache_key digest item)
  cases o₁ : stage1Find db₁.stage1_rows (Stage1Result.generate_cache_key digest item) with
  | none =>
    rw [o₁] at h₁
    cases o₂ : stage1Find db₂.stage1_rows (Stage1Result.generate_cache_key digest item) with
    | none => rfl
    | some r₂ => rw [o₂] at h₁; simp at h₁
  | some r₁ =>
    rw [o₁] at h₁
    cases o₂ : stage1Find db₂.stage1_rows (Stage1Result.generate_cache_key digest item) with
    | none => rw [o₂] at h₁; simp at h₁
    | some r₂ =>
      rw [o₂] at h₁
      simp only [Option.map_some'] at h₁
      have hkey : r₁.cache_key = r₂.cache_key :=
        congrArg Stage1RowContent.cache_key (Option.some.inj h₁)
      dsimp only
      rw [hkey]
      exact isSome_of_map_eq Stage2Row.content
        (stage2Find_contentCongr h.2.1
          (Stage2Result.generate_cache_key digest item r₂.cache_key))

theorem stage1RowResult_cache_key {row : Stage1Row} {res : Stage1Result}
    (h : stage1RowResult row = some res) : res.cache_key = row.cache_key := by
  unfold stage1RowResult at h
  cases hp : parseResponseJson row.response_json with
  | error e => rw [hp] at h; cases h
  | ok doc =>
    rw [hp] at h
    dsimp only at h
    cases hg : doc.getField "semantic_analysis" with
    | none => rw [hg] at h; cases h
    | some v =>
      rw [hg] at h
      dsimp only at h
      cases hd : decodeSemanticAnalysis v with
      | error e => rw [hd] at h; cases h
      | ok sa =>
        rw [hd] at h
        dsimp only at h
        cases h
        rfl

theorem stage2CachedB_of_stage1_none (digest : String → String) (db : CacheDb)
    (item : VocabularyItem) (db' : CacheDb)
    (h : get_stage1_cache db (Stage1Result.generate_cache_key digest item) =
      (.ok none, db')) :
    stage2CachedB digest db item = false := by
  cases hf : stage1Find db.stage1_rows (Stage1Result.generate_cache_key digest item) with
  | none => simp [stage2CachedB, hf]
  | some row =>
    cases hr : stage1RowResult row with
    | none =>
      obtain ⟨e, he⟩ := get_stage1_cache_err db _ row hf hr
      rw [he] at h
      cases h
    | some res =>
      rw [get_stage1_cache_hit db _ row res hf hr] at h
      cases h

theorem stage2CachedB_of_stage1_some (digest : String → String) (db : CacheDb)
    (item : VocabularyItem) (res : Stage1Result) (db' : CacheDb)
    (h : get_stage1_cache db (Stage1Result.generate_cache_key digest item) =
      (.ok (some res), db')) :
    stage2CachedB digest db item =
      (stage2Find db.stage2_rows
        (Stage2Result.generate_cache_key digest item res.cache_key)).isSome := by
  cases hf : stage1Find db.stage1_rows (Stage1Result.generate_cache_key digest item) with
  | none => rw [get_stage1_cache_miss db _ hf] at h; cases h
  | some row =>
    cases hr : stage1RowResult row with
    | none =>
      obtain ⟨e, he⟩ := get_stage1_cache_err db _ row hf hr
      rw [he] at h
      cases h
    | some res2 =>
      rw [get_stage1_cache_hit db _ row res2 hf hr] at h
      cases h
      have hkeyeq : res.cache_key = row.cache_key := stage1RowResult_cache_key hr
      simp [stage2CachedB, hf, hkeyeq]

/-- Invariant of the `warm_cache_for_batch` item loop: the cached content is
never mutated (only access statistics and hit/miss metrics move), and on a
successful run the accumulators count exactly the items whose Stage-1 entry
(resp. Stage-1 and derived Stage-2 entries) existed at loop entry. -/
theorem warmLoop_spec (digest : String → String) (items : List VocabularyItem) :
    ∀ (db : CacheDb) (s1 s2 : Nat),
      cacheContentEq (warmLoop digest db items s1 s2).2 db ∧
      (∀ a b, (warmLoop digest db items s1 s2).1 = .ok (a, b) →
        a = s1 + items.countP (fun i => stage1CachedB digest db i) ∧
        b = s2 + items.countP (fun i => stage2CachedB digest db i)) := by
  induction items with
  | nil =>
    intro db s1 s2
    refine ⟨cacheContentEq_refl db, ?_⟩
    intro a b hab
    simp only [warmLoop, Except.ok.injEq, Prod.mk.injEq] at hab
    obtain ⟨h1, h2⟩ := hab
    subst h1
    subst h2
    simp
  | cons item rest ih =>
    intro db s1 s2
    cases hout1 : get_stage1_cache db (Stage1Result.generate_cache_key digest item) with
    | mk o1 db' =>
      have hcont1 : cacheContentEq db' db := by
        have h := get_stage1_cache_state db (Stage1Result.generate_cache_key digest item)
        rw [hout1] at h
        exact h
      cases o1 with
      | error e =>
        have hred : warmLoop digest db (item :: rest) s1 s2 = (.error e, db') := by
          conv_lhs => unfold warmLoop
          dsimp only
          rw [hout1]
        refine ⟨?_, ?_⟩
        · rw [hred]; exact hcont1
        · intro a b hab
          rw [hred] at hab
          simp at hab
      | ok oo =>
        cases oo with
        | none =>
          have hred : warmLoop digest db (item :: rest) s1 s2 =
              warmLoop digest db' rest s1 s2 := by
            conv_lhs => unfold warmLoop
            dsimp only
            rw [hout1]
          have hp1 : stage1CachedB digest db item = false := by
            unfold stage1CachedB
            exact (get_stage1_cache_ok_isSome db _ none db' hout1).symm
          have hp2 : stage2CachedB digest db item = false :=
            stage2CachedB_of_stage1_none digest db item db' hout1
          obtain ⟨ihEq, ihCnt⟩ := ih db' s1 s2
          refine ⟨?_, ?_⟩
          · rw [hred]; exact cacheContentEq_trans ihEq hcont1
          · intro a b hab
            rw [hred] at hab
            obtain ⟨ha, hb⟩ := ihCnt a b hab
            have hc1 : rest.countP (fun i => stage1CachedB digest db' i) =
                rest.countP (fun i => stage1CachedB digest db i) :=
              List.countP_congr (fun x _ => by rw [stage1CachedB_congr digest hcont1 x])
            have hc2 : rest.countP (fun i => stage2CachedB digest db' i) =
                rest.countP (fun i => stage2CachedB digest db i) :=
              List.countP_congr (fun x _ => by rw [stage2CachedB_congr digest hcont1 x])
            constructor
            · rw [ha, hc1, List.countP_cons]
              simp [hp1]
            · rw [hb, hc2, List.countP_cons]
              simp [hp2]
        | some res =>
          have hp1 : stage1CachedB digest db item = true := by
            unfold stage1CachedB
            exact (get_stage1_cache_ok_isSome db _ (some res) db' hout1).symm
          have hs2 := stage2CachedB_of_stage1_some digest db item res db' hout1
          cases hout2 : get_stage2_cache db'
              (Stage2Result.generate_cache_key digest item res.cache_key) with
          | mk o2 db₂ =>
            have hcont2 : cacheContentEq db₂ db' := by
              have h := get_stage2_cache_state db'
                (Stage2Result.generate_cache_key digest item res.cache_key)
              rw [hout2] at h
              exact h
            have hcont12 := cacheContentEq_trans hcont2 hcont1
            cases o2 with
            | error e2 =>
              have hred : warmLoop digest db (item :: rest) s1 s2 = (.error e2, db₂) := by
                conv_lhs => unfold warmLoop
                dsimp only
                rw [hout1]
                dsimp only
                rw [hout2]
              refine ⟨?_, ?_⟩
              · rw [hred]; exact hcont12
              · intro a b hab
                rw [hred] at hab
                simp at hab
            | ok r2 =>
              have hred : warmLoop digest db (item :: rest) s1 s2 =
                  warmLoop digest db₂ rest (s1 + 1)
                    (if r2.isSome then s2 + 1 else s2) := by
                conv_lhs => unfold warmLoop
                dsimp only
                rw [hout1]
                dsimp only
                rw [hout2]
              have hr2 : r2.isSome = (stage2Find db'.stage2_rows
                  (Stage2Result.generate_cache_key digest item res.cache_key)).isSome :=
                get_stage2_cache_ok_isSome db' _ r2 db₂ hout2
              have hfindeq : (stage2Find db'.stage2_rows
                  (Stage2Result.generate_cache_key digest item res.cache_key)).isSome =
                  (stage2Find db.stage2_rows
                    (Stage2Result.generate_cache_key digest item res.cache_key)).isSome :=
                isSome_of_map_eq Stage2Row.content
                  (stage2Find_contentCongr hcont1.2.1
                    (Stage2Result.generate_cache_key digest item res.cache_key))
              have hp2 : stage2CachedB digest db item = r2.isSome := by
                rw [hs2, ← hfindeq, ← hr2]
              obtain ⟨ihEq, ihCnt⟩ :=
                ih db₂ (s1 + 1) (if r2.isSome then s2 + 1 else s2)
              refine ⟨?_, ?_⟩
              · rw [hred]; exact cacheContentEq_trans ihEq hcont12
              · intro a b hab
                rw [hred] at hab
                obtain ⟨ha, hb⟩ := ihCnt a b hab
                have hc1 : rest.countP (fun i => stage1CachedB digest db₂ i) =
                    rest.countP (fun i => stage1CachedB digest db i) :=
                  List.countP_congr
                    (fun x _ => by rw [stage1CachedB_congr digest hcont12 x])
                have hc2 : rest.countP (fun i => stage2CachedB digest db₂ i) =
                    rest.countP (fun i => stage2CachedB digest db i) :=
                  List.countP_congr
                    (fun x _ => by rw [stage2CachedB_congr digest hcont12 x])
                constructor
                · rw [ha, hc1, List.countP_cons]
                  simp [hp1]
                  omega
                · rw [hb, hc2, List.countP_cons]
                  simp only [hp2]
                  cases hri : r2.isSome <;> simp [hri]
                  omega

theorem stage2CachedB_imp_stage1 (digest : String → String) (db : CacheDb)
    (i : VocabularyItem) (h : stage2CachedB digest db i = true) :
    stage1CachedB digest db i = true := by
  unfold stage2CachedB at h
  unfold stage1CachedB
  cases hf : stage1Find db.stage1_rows (Stage1Result.generate_cache_key digest i) with
  | none => rw [hf] at h; simp at h
  | some row => rfl

/-- Claim C8 (confirmed): `warm_cache_for_batch` is planning-only.  It takes no
producer (none can be invoked) and mutates no cache content — the stage-1 and
stage-2 row contents are exactly as before, with no row inserted or removed
(only access statistics and hit/miss metrics move).  On a successful run it
reports `total_items = |items|`, `stage1_cached` = the number of items whose
Stage-1 entry exists, `stage1_missing = total − stage1_cached`, and
`stage2_cached` = the number of items whose Stage-1 entry exists and whose
derived Stage-2 entry also exists; in particular `stage2_cached = 0` whenever
no item is Stage-1-cached. -/
theorem C8_warm_cache (digest : String → String) (db : CacheDb)
    (items : List VocabularyItem) (stats : CacheWarmupStats)
    (h : (warm_cache_for_batch digest db items).1 = .ok stats) :
    stats.total_items = items.length ∧
    stats.stage1_cached = items.countP (fun i => stage1CachedB digest db i) ∧
    stats.stage1_missing = items.length - stats.stage1_cached ∧
    stats.stage2_cached = items.countP (fun i => stage2CachedB digest db i) ∧
    stats.stage2_missing = items.length - stats.stage2_cached ∧
    stats.estimated_tokens_saved = 0 ∧
    cacheContentEq (warm_cache_for_batch digest db items).2 db ∧
    (items.countP (fun i => stage1CachedB digest db i) = 0 →
      stats.stage2_cached = 0) := by
  obtain ⟨hEq, hCnt⟩ := warmLoop_spec digest items db 0 0
  unfold warm_cache_for_batch at h ⊢
  cases hw : warmLoop digest db items 0 0 with
  | mk w1 db₂ =>
    rw [hw] at h hEq
    cases w1 with
    | error e => simp at h
    | ok p =>
      obtain ⟨a, b⟩ := p
      obtain ⟨ha, hb⟩ := hCnt a b (by rw [hw])
      dsimp only at h hEq ⊢
      have hstats : stats =
          { total_items := items.length, stage1_cached := a, stage2_cached := b,
            stage1_missing := items.length - a,
            stage2_missing := items.length - b,
            estimated_tokens_saved := 0 } := by
        cases h
        rfl
      subst hstats
      refine ⟨rfl, by simpa using ha, rfl, by simpa using hb, rfl, rfl, hEq, ?_⟩
      intro h0
      have hz : items.countP (fun i => stage2CachedB digest db i) = 0 := by
        apply List.countP_eq_zero.mpr
        intro x hx hpx
        exact absurd (List.countP_eq_zero.mp h0 x hx)
          (by simp [stage2CachedB_imp_stage1 digest db x hpx])
      simpa [hz] using hb

/-- Witness for C8, realising the spec scenario: five items of which exactly
two have a cached Stage-1 entry and none a Stage-2 entry give
`stage1_cached = 2, stage1_missing = 3, stage2_cached = 0`, and the row
contents are untouched. -/
theorem C8_witness :
    (warm_cache_for_batch id dbWarm wItems).1 =
      .ok { total_items := 5, stage1_cached := 2, stage2_cached := 0,
            stage1_missing := 3, stage2_missing := 5,
            estimated_tokens_saved := 0 } ∧
    wItems.countP (fun i => stage1CachedB id dbWarm i) = 2 ∧
    (warm_cache_for_batch id dbWarm wItems).2.stage1_rows.map Stage1Row.content =
      dbWarm.stage1_rows.map Stage1Row.content ∧
    (warm_cache_for_batch id dbWarm wItems).2.stage2_rows = [] := by
  have h0 : (warm_cache_for_batch id dbWarm wItems).1 =
      .ok { total_items := 5, stage1_cached := 2, stage2_cached := 0,
            stage1_missing := 3, stage2_missing := 5,
            estimated_tokens_saved := 0 } := by rfl
  have h := C8_warm_cache id dbWarm wItems
    { total_items := 5, stage1_cached := 2, stage2_cached := 0,
      stage1_missing := 3, stage2_missing := 5, estimated_tokens_saved := 0 } h0
  exact ⟨h0, h.2.1.symm, (h.2.2.2.2.2.2.1).1, rfl⟩

end Pipeline

